import Mathlib

/-
  Verification development for the Project4 motion-control core.

  Shallow embedding of the device-controller and device-manager layer:
  - `PIController` (six-axis stage family, src/src/devices/motions/PIController.cpp)
  - `ACSController` (three-axis gantry family, src/src/devices/motions/ACSController.cpp)
  - `PIControllerManagerStandardized` / `ACSControllerManagerStandardized`
    (src/src/devices/motions/*ManagerStandardized.cpp)

  The opaque vendor transports (PI GCS2 and the ACS C library) are modelled as
  oracles: structures of pure response functions, one field per vendor entry
  point the embedded code calls.  Each embedded operation returns its C++
  return value, the successor state of the controller object, and a trace of
  hardware-boundary events (vendor calls issued, threads started/stopped,
  error-code log lines), so that properties such as "returns false without
  sending any command" or "joins the poll thread before closing the session"
  are statable.

  Machine doubles carried by the code (positions, distances, timeouts) are
  never computed with here, only stored and compared, so they are embedded as
  rationals.  Wall-clock time is discrete milliseconds; the busy-wait loops in
  WaitForMotionCompletion sleep 50 ms per iteration exactly as the source
  does, and are embedded fuel-indexed.  The analog-input machinery of
  PIController (voltage cache, qTAC/qTAV calls) is touched by no claim and
  carries no state any claim reads; it is omitted from the state.
-/

namespace Project4

/-- Association-list lookup, modelling `std::map::find`. -/
def getA {α : Type} (m : List (String × α)) (k : String) : Option α :=
  match m with
  | [] => none
  | (k', v) :: rest => if k' = k then some v else getA rest k

/-- Association-list lookup with a default, modelling the
`it != end() ? it->second : dflt` idiom. -/
def getD {α : Type} (m : List (String × α)) (k : String) (dflt : α) : α :=
  (getA m k).getD dflt

/-- Association-list update, modelling `std::map::operator[]` assignment:
replaces the entry when the key is present, appends it otherwise. -/
def setA {α : Type} (m : List (String × α)) (k : String) (v : α) : List (String × α) :=
  match m with
  | [] => [(k, v)]
  | (k', v') :: rest => if k' = k then (k', v) :: rest else (k', v') :: setA rest k v

theorem getA_setA {α : Type} (m : List (String × α)) (k n : String) (v : α) :
    getA (setA m k v) n = if k = n then some v else getA m n := by
  induction m with
  | nil =>
      by_cases h : k = n <;> simp [setA, getA, h]
  | cons p rest ih =>
      obtain ⟨k', v'⟩ := p
      by_cases h1 : k' = k
      · subst h1
        by_cases h2 : k' = n <;> simp [setA, getA, h2]
      · by_cases h2 : k' = n
        · subst h2
          have hkn : ¬ k = k' := fun h => h1 h.symm
          simp [setA, getA, h1, hkn]
        · simp [setA, getA, h1, h2, ih]

/-- Hardware-boundary events recorded by the embedded operations. -/
inductive Event where
  | piConnectTCPIP (ip : String) (port : Int)
  | piCloseConnection
  | piINI
  | piMVR (axis : String)
  | piMOV (axis : String)
  | piSTP
  | piQPOSBatch
  | piQPOS (axis : String)
  | piIsMovingQuery (axis : String)
  | startThread
  | stopThread
  | acsOpenComm (ip : String) (port : Int)
  | acsCloseComm
  | acsEnable (axisIndex : Int)
  | acsKillAll
  | acsGetFPosition (axisIndex : Int)
  | acsToPointM (axisIndex : Int)
  | acsGoM (axisIndex : Int)
  | acsGetMotorState (axisIndex : Int)
  | logError (code : Int)
  | logWarnUnknownAxis (axis : String)
  deriving Repr, DecidableEq

/-- Result of an embedded member-function call: the C++ return value, the
successor object state, and the trace of hardware-boundary events. -/
structure Res (σ : Type) (α : Type) where
  ret : α
  st : σ
  tr : List Event
  deriving Repr

/-- Oracle for the PI GCS2 vendor library: one pure response function per
entry point the embedded PIController code calls. -/
structure PIHW where
  /-- Embeds `PI_ConnectTCPIP`: controller id, negative on failure. -/
  connectTCPIP : String → Int → Int
  /-- Embeds `PI_GetInitError` after a failed connect. -/
  initError : Int
  /-- Embeds `PI_MVR` command acceptance, per axis string passed. -/
  mvrOk : String → Bool
  /-- Embeds `PI_MOV` command acceptance, per axis string passed. -/
  movOk : String → Bool
  /-- Embeds `PI_qERR` vendor error code read after a failed command. -/
  qERR : Int
  /-- Embeds `PI_IsMoving` on a single axis: `none` when the query itself fails,
  `some b` when it succeeds and reports moving = `b`. -/
  isMovingQ : String → Option Bool
  /-- Embeds `PI_qPOS` batch query over the hardcoded axes "X Y Z U V W". -/
  qPOSAll : Option (ℚ × ℚ × ℚ × ℚ × ℚ × ℚ)
  /-- Embeds `PI_qPOS` on a single axis. -/
  qPOS1 : String → Option ℚ
  /-- Embeds `PI_STP` (stop all axes) acceptance. -/
  stpOk : Bool

/-- State of one `PIController` object (PIController.cpp).  The analog-input
fields of the C++ class are omitted: no claim touches them and they feed no
state a claim reads. -/
structure PIState where
  controllerId : Int
  port : Int
  ipAddress : String
  isConnected : Bool
  threadRunning : Bool
  terminateThread : Bool
  enableDebug : Bool
  debugVerbose : Bool
  availableAxes : List String
  axisPositions : List (String × ℚ)
  axisMoving : List (String × Bool)
  axisServoEnabled : List (String × Bool)
  deriving Repr, DecidableEq

/-- Embeds `PIController::PIController()` (lines 12-35): initializes the fields and
immediately starts the communication thread; returns the fresh object state
and the construction-time trace. -/
def piInit : PIState × List Event :=
  ({ controllerId := -1
     port := 50000
     ipAddress := ""
     isConnected := false
     threadRunning := true
     terminateThread := false
     enableDebug := false
     debugVerbose := false
     availableAxes := ["X", "Y", "Z", "U", "V", "W"]
     axisPositions := []
     axisMoving := []
     axisServoEnabled := [] }, [Event.startThread])

/-- Embeds `PIController::GetPositions` (lines 588-626): batch `PI_qPOS` over the
hardcoded six hexapod axes; fails when disconnected or no axes configured.
The C++ fills a caller-supplied map and mutates no member state. -/
def piGetPositions (hw : PIHW) (s : PIState) : Res PIState (Option (List (String × ℚ))) :=
  if ¬ s.isConnected ∨ s.availableAxes = [] then ⟨none, s, []⟩
  else
    match hw.qPOSAll with
    | none => ⟨none, s, [Event.piQPOSBatch]⟩
    | some (x, y, z, u, v, w) =>
        ⟨some [("X", x), ("Y", y), ("Z", z), ("U", u), ("V", v), ("W", w)], s,
         [Event.piQPOSBatch]⟩

/-- Embeds `PIController::Connect` (lines 228-282): idempotent true when connected;
otherwise opens the TCP/IP session, and on failure logs `PI_GetInitError` and
returns false.  On success it marks connected, seeds the per-axis maps with
zeros/false, issues `PI_INI`, and refreshes the position cache from a batch
read.  It does not start the communication thread (the constructor did) and
issues no per-axis enable call. -/
def piConnect (hw : PIHW) (s : PIState) (ip : String) (port : Int) : Res PIState Bool :=
  if s.isConnected then ⟨true, s, []⟩
  else
    let s1 := { s with ipAddress := ip, port := port }
    let cid := hw.connectTCPIP ip port
    let s2 := { s1 with controllerId := cid }
    if cid < 0 then
      ⟨false, s2, [Event.piConnectTCPIP ip port, Event.logError hw.initError]⟩
    else
      let s3 := { s2 with
        isConnected := true
        axisPositions := s2.availableAxes.foldl (fun m a => setA m a 0) s2.axisPositions
        axisMoving := s2.availableAxes.foldl (fun m a => setA m a false) s2.axisMoving
        axisServoEnabled := s2.availableAxes.foldl (fun m a => setA m a false) s2.axisServoEnabled }
      let g := piGetPositions hw s3
      match g.ret with
      | some ps =>
          ⟨true, { g.st with axisPositions := ps },
           [Event.piConnectTCPIP ip port, Event.piINI] ++ g.tr⟩
      | none =>
          ⟨true, g.st, [Event.piConnectTCPIP ip port, Event.piINI] ++ g.tr⟩

/-- Embeds `PIController::StopCommunicationThread` (lines 59-75): when the thread is
running, sets the terminate flag, joins the thread, and clears the running
flag. -/
def piStopCommThread (s : PIState) : Res PIState Unit :=
  if s.threadRunning then
    ⟨(), { s with terminateThread := true, threadRunning := false }, [Event.stopThread]⟩
  else ⟨(), s, []⟩

/-- Embeds `PIController::StopAllAxes` (lines 521-538): `PI_STP` when connected. -/
def piStopAllAxes (hw : PIHW) (s : PIState) : Res PIState Bool :=
  if ¬ s.isConnected then ⟨false, s, []⟩
  else ⟨hw.stpOk, s, [Event.piSTP]⟩

/-- Embeds `PIController::Disconnect` (lines 311-329).  The C++ function returns
`void`: it reports no status.  When connected it first stops and joins the
communication thread, then stops all axes, closes the connection, and clears
the connected flag. -/
def piDisconnect (hw : PIHW) (s : PIState) : Res PIState Unit :=
  if ¬ s.isConnected then ⟨(), s, []⟩
  else
    let r1 := piStopCommThread s
    let r2 := piStopAllAxes hw r1.st
    ⟨(), { r2.st with isConnected := false, controllerId := -1 },
     r1.tr ++ r2.tr ++ [Event.piCloseConnection]⟩

/-- Embeds `PIController::IsMoving` (lines 543-583): always issues a direct
`PI_IsMoving` query; on success returns the hardware answer and overwrites
the cache with it; on query failure returns the cached value (false when
absent) and leaves the cache unchanged. -/
def piIsMoving (hw : PIHW) (s : PIState) (axis : String) : Res PIState Bool :=
  if ¬ s.isConnected then ⟨false, s, []⟩
  else
    match hw.isMovingQ axis with
    | some b =>
        ⟨b, { s with axisMoving := setA s.axisMoving axis b }, [Event.piIsMovingQuery axis]⟩
    | none =>
        ⟨getD s.axisMoving axis false, s, [Event.piIsMovingQuery axis]⟩

/-- Embeds `PIController::GetPosition` (lines 862-892): cached value when present,
otherwise a direct single-axis `PI_qPOS` that also refreshes the cache. -/
def piGetPosition (hw : PIHW) (s : PIState) (axis : String) : Res PIState (Option ℚ) :=
  if ¬ s.isConnected then ⟨none, s, []⟩
  else
    match getA s.axisPositions axis with
    | some p => ⟨some p, s, []⟩
    | none =>
        match hw.qPOS1 axis with
        | some p =>
            ⟨some p, { s with axisPositions := setA s.axisPositions axis p },
             [Event.piQPOS axis]⟩
        | none => ⟨none, s, [Event.piQPOS axis]⟩

/-- Body of the `while (true)` loop of `PIController::WaitForMotionCompletion`
(lines 742-793), fuel-indexed.  Iteration `k` runs after `k` completed 50 ms
sleeps, so its wall-clock elapsed time is `50 * k` milliseconds; the C++
computes `elapsedSeconds` with `duration_cast<seconds>` (truncation to whole
seconds), embedded as natural division `50 * k / 1000`.  The loop first reads
the cached moving flag, double-checks with `IsMoving` only when the cache
says not moving (re-writing the cache with the answer), returns true on
completion, and returns false once the truncated elapsed seconds exceed the
timeout.  Returns `k` alongside so the exit time is statable; `none` means
the fuel ran out before the loop exited. -/
def piWaitLoop (hw : PIHW) (axis : String) (t : ℚ) :
    Nat → PIState → Nat → Option (Bool × PIState × Nat)
  | 0, _, _ => none
  | fuel + 1, s, k =>
    let cached := getD s.axisMoving axis false
    let r :=
      if cached then (⟨true, s, []⟩ : Res PIState Bool)
      else
        let q := piIsMoving hw s axis
        ⟨q.ret, { q.st with axisMoving := setA q.st.axisMoving axis q.ret }, q.tr⟩
    if r.ret = false then some (true, r.st, k)
    else if ((50 * k / 1000 : Nat) : ℚ) > t then some (false, r.st, k)
    else piWaitLoop hw axis t fuel r.st (k + 1)

/-- Embeds `PIController::WaitForMotionCompletion` (lines 732-794): false at once
when disconnected, otherwise the polling loop from iteration 0. -/
def piWaitForMotionCompletion (hw : PIHW) (s : PIState) (axis : String) (t : ℚ)
    (fuel : Nat) : Option (Bool × PIState × Nat) :=
  if ¬ s.isConnected then some (false, s, 0)
  else piWaitLoop hw axis t fuel s 0

/-- Embeds `PIController::MoveRelative` (lines 373-470): false when disconnected;
in verbose-debug mode reads the pre-move position; sends `PI_MVR` with the
axis string as given (no validation against the configured axes), logging the
`PI_qERR` code and returning false when the hardware rejects it; on
acceptance immediately writes moving = true into the cache, then either waits
for completion (`blocking`) or returns true.  `dt` is the timeout the
blocking branch hands to WaitForMotionCompletion (its default value lives in
the header, which is not part of the sources). -/
def piMoveRelative (hw : PIHW) (dt : ℚ) (fuel : Nat) (s : PIState) (axis : String)
    (blocking : Bool) : Option (Res PIState Bool) :=
  if ¬ s.isConnected then some ⟨false, s, []⟩
  else
    let pre :=
      if s.debugVerbose then
        let g := piGetPosition hw s axis
        (⟨(), g.st, g.tr⟩ : Res PIState Unit)
      else ⟨(), s, []⟩
    if ¬ hw.mvrOk axis then
      some ⟨false, pre.st, pre.tr ++ [Event.piMVR axis, Event.logError hw.qERR]⟩
    else
      let s1 := { pre.st with axisMoving := setA pre.st.axisMoving axis true }
      if blocking then
        match piWaitLoop hw axis dt fuel s1 0 with
        | none => none
        | some (b, s2, _) => some ⟨b, s2, pre.tr ++ [Event.piMVR axis]⟩
      else
        let post :=
          if s1.debugVerbose then
            let g := piGetPosition hw s1 axis
            (⟨(), g.st, g.tr⟩ : Res PIState Unit)
          else ⟨(), s1, []⟩
        some ⟨true, post.st, pre.tr ++ [Event.piMVR axis] ++ post.tr⟩

/-- Embeds `PIController::MoveToPosition` (lines 332-367), the absolute move: false
when disconnected; sends `PI_MOV` with the axis string as given, logging the
error code and returning false on rejection; on acceptance immediately writes
moving = true into the cache, then waits when `blocking`. -/
def piMoveToPosition (hw : PIHW) (dt : ℚ) (fuel : Nat) (s : PIState) (axis : String)
    (blocking : Bool) : Option (Res PIState Bool) :=
  if ¬ s.isConnected then some ⟨false, s, []⟩
  else if ¬ hw.movOk axis then
    some ⟨false, s, [Event.piMOV axis, Event.logError hw.qERR]⟩
  else
    let s1 := { s with axisMoving := setA s.axisMoving axis true }
    if blocking then
      match piWaitLoop hw axis dt fuel s1 0 with
      | none => none
      | some (b, s2, _) => some ⟨b, s2, [Event.piMOV axis]⟩
    else some ⟨true, s1, [Event.piMOV axis]⟩

/-- Vendor constant `ACSC_INVALID` (invalid communication handle). -/
def ACSC_INVALID : Int := -1

/-- Embeds `ACSController::GetAxisIndex` (lines 205-212): maps the string axis
identifiers to the vendor axis indices `ACSC_AXIS_X/Y/Z` (modelled 0/1/2) and
-1 with a logged warning for anything else. -/
def acsGetAxisIndex (axis : String) : Int :=
  if axis = "X" then 0 else if axis = "Y" then 1 else if axis = "Z" then 2 else -1

/-- Oracle for the ACS vendor library: one pure response function per entry
point the embedded ACSController code calls.  `motorState` decodes the
`ACSC_MST_MOVE` and `ACSC_MST_ENABLE` bits of the vendor state word as a pair
(moving, enabled); `none` means the call itself failed. -/
structure ACSHW where
  /-- Embeds `acsc_OpenCommEthernet`: handle, `ACSC_INVALID` on failure. -/
  openComm : String → Int → Int
  /-- Embeds `acsc_GetLastError`. -/
  lastError : Int
  /-- Embeds `acsc_Enable` acceptance, per axis index. -/
  enableOk : Int → Bool
  /-- Embeds `acsc_GetFPosition`, per axis index. -/
  getFPos : Int → Option ℚ
  /-- Embeds `acsc_ToPointM` with `ACSC_AMF_WAIT` (absolute), per axis index. -/
  toPointOk : Int → Bool
  /-- Embeds `acsc_ToPointM` with `ACSC_AMF_WAIT | ACSC_AMF_RELATIVE`, per axis index. -/
  toPointRelOk : Int → Bool
  /-- Embeds `acsc_GoM` acceptance, per axis index. -/
  goOk : Int → Bool
  /-- Embeds `acsc_GetMotorState`, decoded: (MST_MOVE bit, MST_ENABLE bit). -/
  motorState : Int → Option (Bool × Bool)
  /-- Embeds `acsc_KillAll` acceptance. -/
  killAllOk : Bool
  /-- Embeds `acsc_CloseComm`: true when the close reported no error. -/
  closeOk : Bool

/-- State of one `ACSController` object (ACSController.cpp).  Timestamps are
discrete milliseconds; `statusUpdateInterval` carries `m_statusUpdateInterval`
(the class header is not among the sources; the implementation's comment at
IsMoving, "less than 200ms old", and the spec's 150-250 ms staleness window
fix it at 200).  The pending-command queue is drained only by the
communication thread's cycle, which no claim traverses; it is omitted. -/
structure ACSState where
  controllerId : Int
  port : Int
  ipAddress : String
  isConnected : Bool
  threadRunning : Bool
  terminateThread : Bool
  enableDebug : Bool
  availableAxes : List String
  axisPositions : List (String × ℚ)
  axisMoving : List (String × Bool)
  axisServoEnabled : List (String × Bool)
  lastStatusUpdate : Nat
  statusUpdateInterval : Nat
  deriving Repr, DecidableEq

/-- Embeds `ACSController::ACSController()` (lines 11-27): initializes the fields and
immediately starts the communication thread. -/
def acsInit : ACSState × List Event :=
  ({ controllerId := ACSC_INVALID
     port := 701
     ipAddress := ""
     isConnected := false
     threadRunning := true
     terminateThread := false
     enableDebug := false
     availableAxes := ["X", "Y", "Z"]
     axisPositions := []
     axisMoving := []
     axisServoEnabled := []
     lastStatusUpdate := 0
     statusUpdateInterval := 200 }, [Event.startThread])

/-- Embeds `ACSController::GetPositions` (lines 533-566): per-axis `acsc_GetFPosition`
for the X/Y/Z indices; succeeds only when every query succeeds, and then keys
the results by the first three configured axis names (the C++ indexes
`m_availableAxes[0..2]`). -/
def acsGetPositions (hw : ACSHW) (s : ACSState) : Res ACSState (Option (List (String × ℚ))) :=
  if ¬ s.isConnected ∨ s.availableAxes = [] then ⟨none, s, []⟩
  else
    let evs := [Event.acsGetFPosition 0, Event.acsGetFPosition 1, Event.acsGetFPosition 2]
    match hw.getFPos 0, hw.getFPos 1, hw.getFPos 2 with
    | some x, some y, some z =>
        ⟨some ((s.availableAxes.take 3).zip [x, y, z]), s, evs⟩
    | _, _, _ => ⟨none, s, evs⟩

/-- Embeds `ACSController::Connect` (lines 214-280): idempotent true when connected;
on a failed open logs `acsc_GetLastError` and returns false; on success marks
connected, enables every configured axis with a valid index, and seeds the
position cache from an initial read. -/
def acsConnect (hw : ACSHW) (s : ACSState) (ip : String) (port : Int) : Res ACSState Bool :=
  if s.isConnected then ⟨true, s, []⟩
  else
    let s1 := { s with ipAddress := ip, port := port }
    let cid := hw.openComm ip port
    let s2 := { s1 with controllerId := cid }
    if cid = ACSC_INVALID then
      ⟨false, s2, [Event.acsOpenComm ip port, Event.logError hw.lastError]⟩
    else
      let s3 := { s2 with isConnected := true }
      let enableEvs :=
        ((s3.availableAxes.map acsGetAxisIndex).filter (fun i => 0 ≤ i)).map Event.acsEnable
      let g := acsGetPositions hw s3
      match g.ret with
      | some ps =>
          ⟨true, { g.st with axisPositions := ps },
           [Event.acsOpenComm ip port] ++ enableEvs ++ g.tr⟩
      | none =>
          ⟨true, g.st, [Event.acsOpenComm ip port] ++ enableEvs ++ g.tr⟩

/-- Embeds `ACSController::StopAllAxes` (lines 449-465): `acsc_KillAll` when
connected. -/
def acsStopAllAxes (hw : ACSHW) (s : ACSState) : Res ACSState Bool :=
  if ¬ s.isConnected then ⟨false, s, []⟩
  else ⟨hw.killAllOk, s, [Event.acsKillAll]⟩

/-- Embeds `ACSController::Disconnect` (lines 284-319): true at once when already
disconnected; otherwise stops all axes (a failure clears the success flag but
does not abort), closes the communication handle (a failed close also clears
the flag), always clears the connected state, and returns the accumulated
flag.  It never touches the communication thread: the poll loop keeps running
(only the destructor stops it). -/
def acsDisconnect (hw : ACSHW) (s : ACSState) : Res ACSState Bool :=
  if ¬ s.isConnected then ⟨true, s, []⟩
  else
    let r1 := acsStopAllAxes hw s
    let success := r1.ret && hw.closeOk
    ⟨success, { r1.st with isConnected := false, controllerId := ACSC_INVALID },
     r1.tr ++ [Event.acsCloseComm]⟩

/-- Embeds `ACSController::IsMoving` (lines 467-509): within the staleness window a
cached entry is returned as-is; otherwise (or when no entry exists) a direct
`acsc_GetMotorState` query decodes the MST_MOVE bit, refreshes the cache and
the status timestamp.  `now` is the current steady-clock time in
milliseconds. -/
def acsIsMoving (hw : ACSHW) (now : Nat) (s : ACSState) (axis : String) : Res ACSState Bool :=
  if ¬ s.isConnected then ⟨false, s, []⟩
  else
    if now - s.lastStatusUpdate < s.statusUpdateInterval ∧ (getA s.axisMoving axis).isSome then
      ⟨getD s.axisMoving axis false, s, []⟩
    else
      let idx := acsGetAxisIndex axis
      if idx < 0 then ⟨false, s, []⟩
      else
        match hw.motorState idx with
        | none => ⟨false, s, [Event.acsGetMotorState idx]⟩
        | some (mv, _en) =>
            ⟨mv, { s with axisMoving := setA s.axisMoving axis mv, lastStatusUpdate := now },
             [Event.acsGetMotorState idx]⟩

/-- Embeds `ACSController::StartMotion` (lines 761-787): `acsc_GoM` on the single
axis, after the connected and axis-index guards. -/
def acsStartMotion (hw : ACSHW) (s : ACSState) (axis : String) : Res ACSState Bool :=
  if ¬ s.isConnected then ⟨false, s, []⟩
  else
    let idx := acsGetAxisIndex axis
    if idx < 0 then ⟨false, s, [Event.logWarnUnknownAxis axis]⟩
    else ⟨hw.goOk idx, s, [Event.acsGoM idx]⟩

/-- Body of the `while (true)` loop of
`ACSController::WaitForMotionCompletion` (lines 678-698), fuel-indexed.
Iteration `k` runs after `k` completed 50 ms sleeps, at wall-clock time
`startNow + 50 * k`; the timeout comparison truncates the elapsed time to
whole seconds exactly as the C++ `duration_cast<seconds>` does. -/
def acsWaitLoop (hw : ACSHW) (axis : String) (t : ℚ) (startNow : Nat) :
    Nat → ACSState → Nat → Option (Bool × ACSState × Nat)
  | 0, _, _ => none
  | fuel + 1, s, k =>
    let r := acsIsMoving hw (startNow + 50 * k) s axis
    if r.ret = false then some (true, r.st, k)
    else if ((50 * k / 1000 : Nat) : ℚ) > t then some (false, r.st, k)
    else acsWaitLoop hw axis t startNow fuel r.st (k + 1)

/-- Embeds `ACSController::WaitForMotionCompletion` (lines 661-699): false at once
when disconnected or the axis identifier is unknown; otherwise the polling
loop from iteration 0. -/
def acsWaitForMotionCompletion (hw : ACSHW) (now : Nat) (s : ACSState) (axis : String)
    (t : ℚ) (fuel : Nat) : Option (Bool × ACSState × Nat) :=
  if ¬ s.isConnected then some (false, s, 0)
  else if acsGetAxisIndex axis < 0 then some (false, s, 0)
  else acsWaitLoop hw axis t now fuel s 0

/-- Embeds `ACSController::MoveRelative` (lines 357-400): false when disconnected;
false before any hardware command when the axis identifier is unknown (the
warning is printed by GetAxisIndex); otherwise reads the pre-move position in
debug mode, sends the relative `acsc_ToPointM`, starts the motion with
`acsc_GoM`, and waits when `blocking`.  It performs no optimistic update of
the moving cache. -/
def acsMoveRelative (hw : ACSHW) (dt : ℚ) (fuel : Nat) (now : Nat) (s : ACSState)
    (axis : String) (blocking : Bool) : Option (Res ACSState Bool) :=
  if ¬ s.isConnected then some ⟨false, s, []⟩
  else
    let idx := acsGetAxisIndex axis
    if idx < 0 then some ⟨false, s, [Event.logWarnUnknownAxis axis]⟩
    else
      let preTr := if s.enableDebug then [Event.acsGetFPosition idx] else []
      if ¬ hw.toPointRelOk idx then
        some ⟨false, s, preTr ++ [Event.acsToPointM idx, Event.logError hw.lastError]⟩
      else
        let sm := acsStartMotion hw s axis
        if sm.ret = false then
          some ⟨false, sm.st, preTr ++ [Event.acsToPointM idx] ++ sm.tr⟩
        else if blocking then
          match acsWaitLoop hw axis dt now fuel sm.st 0 with
          | none => none
          | some (b, s2, _) => some ⟨b, s2, preTr ++ [Event.acsToPointM idx] ++ sm.tr⟩
        else some ⟨true, sm.st, preTr ++ [Event.acsToPointM idx] ++ sm.tr⟩

/-- Embeds `ACSController::MoveToPosition` (lines 320-355), the absolute move: the
same guard structure as MoveRelative with the absolute `acsc_ToPointM`; no
optimistic update of the moving cache. -/
def acsMoveToPosition (hw : ACSHW) (dt : ℚ) (fuel : Nat) (now : Nat) (s : ACSState)
    (axis : String) (blocking : Bool) : Option (Res ACSState Bool) :=
  if ¬ s.isConnected then some ⟨false, s, []⟩
  else
    let idx := acsGetAxisIndex axis
    if idx < 0 then some ⟨false, s, [Event.logWarnUnknownAxis axis]⟩
    else if ¬ hw.toPointOk idx then
      some ⟨false, s, [Event.acsToPointM idx, Event.logError hw.lastError]⟩
    else
      let sm := acsStartMotion hw s axis
      if sm.ret = false then
        some ⟨false, sm.st, [Event.acsToPointM idx] ++ sm.tr⟩
      else if blocking then
        match acsWaitLoop hw axis dt now fuel sm.st 0 with
        | none => none
        | some (b, s2, _) => some ⟨b, s2, [Event.acsToPointM idx] ++ sm.tr⟩
      else some ⟨true, sm.st, [Event.acsToPointM idx] ++ sm.tr⟩

/-- One device record handed back by the configuration collaborator
(`Config::Motion::GetAllDevices`), fields as consumed by the managers. -/
structure MotionRecord where
  name : String
  ipAddress : String
  port : Int
  id : Int
  isEnabled : Bool
  installAxes : String
  typeController : String
  deriving Repr, DecidableEq

/-- Embeds the `PIControllerManagerStandardized::PIDeviceConfig` entry of the config
registry. -/
structure PIDeviceConfig where
  name : String
  ipAddress : String
  port : Int
  id : Int
  isEnabled : Bool
  installAxes : String
  isConnected : Bool
  deriving Repr, DecidableEq

/-- State of one `PIControllerManagerStandardized`.  The stored real-device
objects are keyed by name; a device object is stored only on a successful
connect and destroyed on disconnect, so a stored entry is a connected device
(`realDevices` lists the names). -/
structure PIManagerState where
  hardwareMode : Bool
  isInitialized : Bool
  deviceConfigs : List (String × PIDeviceConfig)
  mockDeviceNames : List String
  mockConnectionStates : List Bool
  realDevices : List String
  deriving Repr, DecidableEq

/-- Conversion of a configuration record into the PI manager's registry
entry, as done field-by-field in the loading loop. -/
def piCfgOfRecord (d : MotionRecord) : PIDeviceConfig :=
  { name := d.name
    ipAddress := d.ipAddress
    port := d.port
    id := d.id
    isEnabled := d.isEnabled
    installAxes := d.installAxes
    isConnected := false }

/-- Loop body of the try-branch of
`PIControllerManagerStandardized::LoadDevicesFromConfig`: a "PI"-family
record — enabled or not — is inserted into the config registry keyed by name
and mirrored into the mock lists; other records are skipped. -/
def piLoadStep (acc : PIManagerState) (d : MotionRecord) : PIManagerState :=
  if d.typeController = "PI" then
    { acc with
      deviceConfigs := setA acc.deviceConfigs d.name (piCfgOfRecord d)
      mockDeviceNames := acc.mockDeviceNames ++ [d.name]
      mockConnectionStates := acc.mockConnectionStates ++ [false] }
  else acc

/-- Embeds `PIControllerManagerStandardized::LoadDevicesFromConfig` (lines
437-487): clears the registry and the mock lists; keeps every record whose
`typeController` is "PI" — the `isEnabled` flag is copied but NOT filtered
on — inserting it keyed by name and mirroring it into the mock lists (state
false).  When the configuration source throws, falls back to
`CreateDefaultConfigs` (lines 489-511): the three built-in hex devices.
The configuration source outcome is the `Except` argument. -/
def piLoadDevicesFromConfig (src : Except String (List MotionRecord))
    (m : PIManagerState) : PIManagerState :=
  let cleared := { m with deviceConfigs := [], mockDeviceNames := [], mockConnectionStates := [] }
  match src with
  | Except.ok devices => devices.foldl piLoadStep cleared
  | Except.error _ =>
      let defaults : List (String × String × Int) :=
        [("hex-left", "192.168.1.100", 50000),
         ("hex-right", "192.168.1.101", 50000),
         ("hex-bottom", "192.168.1.102", 50000)]
      defaults.foldl (fun acc d =>
        { acc with
          deviceConfigs := setA acc.deviceConfigs d.1
            { name := d.1, ipAddress := d.2.1, port := d.2.2, id := 0
              isEnabled := true, installAxes := "", isConnected := false }
          mockDeviceNames := acc.mockDeviceNames ++ [d.1]
          mockConnectionStates := acc.mockConnectionStates ++ [false] }) cleared

/-- Embeds `PIControllerManagerStandardized::ConnectDevice` (lines 163-184), hardware
path: idempotent true for an already-stored (hence connected) device;
otherwise `CreateRealDevice` (lines 513-564): the config must exist, the
controller is created and connected through the hardware (the oracle
`hwConnect` folds the per-device `PIController::Connect` outcome), and on
success the device is stored and the config marked connected. -/
def piMgrConnectDevice (hwConnect : String → Bool) (m : PIManagerState)
    (deviceName : String) : Bool × PIManagerState :=
  if deviceName ∈ m.realDevices then (true, m)
  else
    match getA m.deviceConfigs deviceName with
    | none => (false, m)
    | some cfg =>
        if hwConnect deviceName then
          (true, { m with
            realDevices := m.realDevices ++ [deviceName]
            deviceConfigs := setA m.deviceConfigs deviceName { cfg with isConnected := true } })
        else (false, m)

/-- Loop body of the hardware-mode device loop of
`PIControllerManagerStandardized::ConnectAll` (lines 52-96): false at once
when not initialized.  Hardware mode: iterates the config registry, attempts
`ConnectDevice` on each ENABLED device — skipping disabled ones — ANDing the
results but continuing after failures.  Mock mode: calls no Connect at all;
it sets every other mock state to connected and returns true unconditionally.
The third component of the result lists the devices on which a Connect was
attempted. -/
def piMgrConnectAllStep (hwConnect : String → Bool)
    (acc : Bool × PIManagerState × List String) (p : String × PIDeviceConfig) :
    Bool × PIManagerState × List String :=
  if p.2.isEnabled then
    let r := piMgrConnectDevice hwConnect acc.2.1 p.1
    (acc.1 && r.1, r.2, acc.2.2 ++ [p.1])
  else acc

/-- Embeds the body of `PIControllerManagerStandardized::ConnectAll`; the
per-device loop body is `piMgrConnectAllStep` above. -/
def piMgrConnectAll (hwConnect : String → Bool) (m : PIManagerState) :
    Bool × PIManagerState × List String :=
  if ¬ m.isInitialized then (false, m, [])
  else if m.hardwareMode then
    m.deviceConfigs.foldl (piMgrConnectAllStep hwConnect) (true, m, [])
  else
    (true, { m with
      mockConnectionStates := (List.range m.mockConnectionStates.length).map
        (fun i => if i < m.mockDeviceNames.length then decide (i % 2 = 0)
                  else m.mockConnectionStates.getD i false) }, [])

/-- Embeds `PIControllerManagerStandardized::GetRealDevice` (lines 603-610), which
`GetDevice` forwards to (lines 126-132): in hardware mode the stored device
handle (modelled by its name) or null; in mock mode always null. -/
def piMgrGetDevice (m : PIManagerState) (deviceName : String) : Option String :=
  if m.hardwareMode then
    if deviceName ∈ m.realDevices then some deviceName else none
  else none

/-- Embeds `DeviceManagerBase::HasDevice` (IDeviceManagerInterface.h lines 63-66):
the default implementation the PI manager inherits; true exactly when
`GetDevice` returns non-null. -/
def piMgrHasDevice (m : PIManagerState) (deviceName : String) : Bool :=
  (piMgrGetDevice m deviceName).isSome

/-- Embeds `PIControllerManagerStandardized::FindMockDeviceIndex` (lines 633-636):
index of the name in the mock list, or the list's size when absent. -/
def piMgrFindMockIndex (m : PIManagerState) (deviceName : String) : Nat :=
  m.mockDeviceNames.indexOf deviceName

/-- Embeds `PIControllerManagerStandardized::IsRealDeviceConnected` (lines 621-631),
which `IsDeviceConnected` forwards to (lines 208-210): hardware mode checks
the stored device handle and its connected flag; mock mode reads the mock state vector at
the name's index (false when out of range). -/
def piMgrIsDeviceConnected (m : PIManagerState) (deviceName : String) : Bool :=
  if m.hardwareMode then decide (deviceName ∈ m.realDevices)
  else
    match m.mockConnectionStates[piMgrFindMockIndex m deviceName]? with
    | some b => b
    | none => false

/-- Embeds `ACSControllerManagerStandardized::DeviceConfig` registry entry. -/
structure ACSDeviceConfig where
  name : String
  ipAddress : String
  port : Int
  isEnabled : Bool
  installAxes : String
  deriving Repr, DecidableEq

/-- State of one `ACSControllerManagerStandardized`: the config list and the
created controllers with their connection state (name, isConnected). -/
structure ACSManagerState where
  isInitialized : Bool
  deviceConfigs : List ACSDeviceConfig
  controllers : List (String × Bool)
  deriving Repr, DecidableEq

/-- Conversion of a configuration record into the ACS manager's registry
entry, as done field-by-field in the loading loop. -/
def acsCfgOfRecord (d : MotionRecord) : ACSDeviceConfig :=
  { name := d.name
    ipAddress := d.ipAddress
    port := d.port
    isEnabled := d.isEnabled
    installAxes := d.installAxes }

/-- Loop body of the try-branch of
`ACSControllerManagerStandardized::LoadDevicesFromConfig`: a record is kept
exactly when its family is "ACS" and it is enabled. -/
def acsLoadStep (acc : ACSManagerState) (d : MotionRecord) : ACSManagerState :=
  if d.typeController = "ACS" ∧ d.isEnabled then
    { acc with deviceConfigs := acc.deviceConfigs ++ [acsCfgOfRecord d] }
  else acc

/-- Embeds `ACSControllerManagerStandardized::LoadDevicesFromConfig` (lines
192-237): clears the config list and keeps exactly the records with
`typeController == "ACS"` and `isEnabled` true; when the configuration source
throws, falls back to the single built-in gantry-main record. -/
def acsLoadDevicesFromConfig (src : Except String (List MotionRecord))
    (m : ACSManagerState) : ACSManagerState :=
  let cleared := { m with deviceConfigs := [] }
  match src with
  | Except.ok devices => devices.foldl acsLoadStep cleared
  | Except.error _ =>
      { cleared with deviceConfigs :=
          [{ name := "gantry-main", ipAddress := "192.168.1.100", port := 701
             isEnabled := true, installAxes := "XYZ" }] }

/-- Embeds `ACSControllerManagerStandardized::FindDeviceConfig` (lines 239-247). -/
def acsFindDeviceConfig (configs : List ACSDeviceConfig) (deviceName : String) :
    Option ACSDeviceConfig :=
  configs.find? (fun c => c.name = deviceName)

/-- Embeds `ACSControllerManagerStandardized::ConnectAll` (lines 48-74): false at
once when not initialized; iterates the controllers, and for each one with no
config records a failure and continues; otherwise calls the controller's
Connect (idempotent true when already connected, else the hardware outcome),
ANDing results but continuing after failures.  The third component lists the
controllers on which Connect was called.  The loop body. -/
def acsMgrConnectAllStep (hwConnect : String → Bool)
    (acc : Bool × ACSManagerState × List String) (p : String × Bool) :
    Bool × ACSManagerState × List String :=
  match acsFindDeviceConfig acc.2.1.deviceConfigs p.1 with
  | none => (false, acc.2.1, acc.2.2)
  | some _ =>
      let connected := p.2 || hwConnect p.1
      (acc.1 && connected,
       { acc.2.1 with controllers := setA acc.2.1.controllers p.1 connected },
       acc.2.2 ++ [p.1])

/-- Embeds the body of `ACSControllerManagerStandardized::ConnectAll`; the
per-controller loop body is `acsMgrConnectAllStep` above. -/
def acsMgrConnectAll (hwConnect : String → Bool) (m : ACSManagerState) :
    Bool × ACSManagerState × List String :=
  if ¬ m.isInitialized then (false, m, [])
  else
    m.controllers.foldl (acsMgrConnectAllStep hwConnect) (true, m, [])

/-! ### Fixtures: concrete hardware oracles and controller states -/

/-- PI hardware fixture: open succeeds, every command accepted, every axis
always reports moving. -/
def piHWmoving : PIHW :=
  { connectTCPIP := fun _ _ => 1
    initError := 0
    mvrOk := fun _ => true
    movOk := fun _ => true
    qERR := 0
    isMovingQ := fun _ => some true
    qPOSAll := some (0, 0, 0, 0, 0, 0)
    qPOS1 := fun _ => some 0
    stpOk := true }

/-- PI hardware fixture: connected session but every move command rejected
with vendor error 23. -/
def piHWreject : PIHW :=
  { connectTCPIP := fun _ _ => 1
    initError := 0
    mvrOk := fun _ => false
    movOk := fun _ => false
    qERR := 23
    isMovingQ := fun _ => some false
    qPOSAll := some (0, 0, 0, 0, 0, 0)
    qPOS1 := fun _ => some 0
    stpOk := true }

/-- Connected PI controller fixture with the default hexapod axes and a
seeded cache; axis X cached as moving. -/
def piFixConn : PIState :=
  { controllerId := 1
    port := 50000
    ipAddress := "192.168.1.100"
    isConnected := true
    threadRunning := true
    terminateThread := false
    enableDebug := false
    debugVerbose := false
    availableAxes := ["X", "Y", "Z", "U", "V", "W"]
    axisPositions := [("X", 0), ("Y", 0), ("Z", 0), ("U", 0), ("V", 0), ("W", 0)]
    axisMoving := [("X", true), ("Y", false), ("Z", false), ("U", false), ("V", false), ("W", false)]
    axisServoEnabled := [("X", true), ("Y", true), ("Z", true), ("U", true), ("V", true), ("W", true)] }

/-- ACS hardware fixture: everything succeeds and every axis always reports
moving. -/
def acsHWmoving : ACSHW :=
  { openComm := fun _ _ => 1
    lastError := 0
    enableOk := fun _ => true
    getFPos := fun _ => some 0
    toPointOk := fun _ => true
    toPointRelOk := fun _ => true
    goOk := fun _ => true
    motorState := fun _ => some (true, true)
    killAllOk := true
    closeOk := true }

/-- ACS hardware fixture: commands accepted but the motor state lags, still
reporting not-moving right after a move was commanded. -/
def acsHWlag : ACSHW :=
  { openComm := fun _ _ => 1
    lastError := 0
    enableOk := fun _ => true
    getFPos := fun _ => some 0
    toPointOk := fun _ => true
    toPointRelOk := fun _ => true
    goOk := fun _ => true
    motorState := fun _ => some (false, true)
    killAllOk := true
    closeOk := true }

/-- ACS hardware fixture: the stop-all command fails while the close
succeeds. -/
def acsHWstopFail : ACSHW :=
  { openComm := fun _ _ => 1
    lastError := 5
    enableOk := fun _ => true
    getFPos := fun _ => some 0
    toPointOk := fun _ => true
    toPointRelOk := fun _ => true
    goOk := fun _ => true
    motorState := fun _ => some (false, true)
    killAllOk := false
    closeOk := true }

/-- Connected ACS controller fixture with the default gantry axes, a live
poll thread, and a seeded cache (axis X cached as moving, status freshly
updated at time 1000 ms). -/
def acsFixConn : ACSState :=
  { controllerId := 1
    port := 701
    ipAddress := "192.168.1.50"
    isConnected := true
    threadRunning := true
    terminateThread := false
    enableDebug := false
    availableAxes := ["X", "Y", "Z"]
    axisPositions := [("X", 0), ("Y", 0), ("Z", 0)]
    axisMoving := [("X", true), ("Y", false), ("Z", false)]
    axisServoEnabled := [("X", true), ("Y", true), ("Z", true)]
    lastStatusUpdate := 1000
    statusUpdateInterval := 200 }

/-- Connected ACS controller fixture whose cache says axis X is NOT moving
and whose status cache is fresh at time 1000 ms. -/
def acsFixLag : ACSState :=
  { acsFixConn with axisMoving := [("X", false), ("Y", false), ("Z", false)] }

/-! ### Wait-loop timeout analysis (claim C1) -/

/-- Helper: one iteration of the PI wait loop under hardware that reports the
axis still moving either keeps polling or exits false on timeout; the
iteration state stays connected. -/
theorem piWaitLoop_succ_moving (hw : PIHW) (axis : String) (t : ℚ) (fuel : Nat)
    (s : PIState) (k : Nat) (hc : s.isConnected = true)
    (hmv : hw.isMovingQ axis = some true) :
    ∃ s' : PIState, s'.isConnected = true ∧
      piWaitLoop hw axis t (fuel + 1) s k =
        (if ((50 * k / 1000 : Nat) : ℚ) > t then some (false, s', k)
         else piWaitLoop hw axis t fuel s' (k + 1)) := by
  by_cases hcache : getD s.axisMoving axis false
  · exact ⟨s, hc, by simp [piWaitLoop, hcache]⟩
  · refine ⟨{ s with axisMoving := setA (setA s.axisMoving axis true) axis true }, by simp [hc], ?_⟩
    simp [piWaitLoop, hcache, piIsMoving, hc, hmv]

/-- Helper: under always-moving PI hardware, the wait loop at iteration `j`
keeps running while the truncated elapsed seconds stay at or below `n` and
exits false at the first iteration where they exceed `n`, which is iteration
`20 * (n + 1)` (elapsed `(n + 1)` whole seconds). -/
theorem piWaitLoop_timesOut (hw : PIHW) (axis : String) (n : Nat)
    (hmv : hw.isMovingQ axis = some true) :
    ∀ (m j : Nat) (s : PIState), s.isConnected = true → j + m = 20 * (n + 1) →
      (piWaitLoop hw axis (n : ℚ) (m + 1) s j).map (fun r => (r.1, r.2.2))
        = some (false, 20 * (n + 1)) := by
  intro m
  induction m with
  | zero =>
      intro j s hc hj
      have hj' : j = 20 * (n + 1) := by omega
      subst hj'
      have hdiv : 50 * (20 * (n + 1)) / 1000 = n + 1 := by omega
      have hgt : (((50 * (20 * (n + 1)) / 1000 : Nat)) : ℚ) > (n : ℚ) := by
        rw [hdiv]
        exact_mod_cast Nat.lt_succ_self n
      obtain ⟨s', _, heq⟩ := piWaitLoop_succ_moving hw axis (n : ℚ) 0 s (20 * (n + 1)) hc hmv
      rw [heq, if_pos hgt]
      rfl
  | succ m ih =>
      intro j s hc hj
      have hle : 50 * j / 1000 ≤ n := by omega
      have hngt : ¬ (((50 * j / 1000 : Nat)) : ℚ) > (n : ℚ) := by
        rw [not_lt]
        exact_mod_cast hle
      obtain ⟨s', hc', heq⟩ := piWaitLoop_succ_moving hw axis (n : ℚ) (m + 1) s j hc hmv
      rw [heq, if_neg hngt]
      exact ih (j + 1) s' hc' (by omega)

/-- Helper: one iteration of the ACS wait loop under hardware that keeps
reporting the axis moving, provided the cached entry is never a stale
`false`, either keeps polling or exits false on timeout; the iteration
preserves both invariants. -/
theorem acsWaitLoop_succ_moving (hw : ACSHW) (axis : String) (t : ℚ) (startNow : Nat)
    (fuel : Nat) (s : ACSState) (k : Nat) (en : Bool)
    (hc : s.isConnected = true)
    (hidx : 0 ≤ acsGetAxisIndex axis)
    (hmv : hw.motorState (acsGetAxisIndex axis) = some (true, en))
    (hcv : getA s.axisMoving axis ≠ some false) :
    ∃ s' : ACSState, s'.isConnected = true ∧ getA s'.axisMoving axis ≠ some false ∧
      acsWaitLoop hw axis t startNow (fuel + 1) s k =
        (if ((50 * k / 1000 : Nat) : ℚ) > t then some (false, s', k)
         else acsWaitLoop hw axis t startNow fuel s' (k + 1)) := by
  have hnl : ¬ acsGetAxisIndex axis < 0 := not_lt.mpr hidx
  by_cases hfresh : startNow + 50 * k - s.lastStatusUpdate
      < s.statusUpdateInterval ∧ (getA s.axisMoving axis).isSome
  · have hcached : getD s.axisMoving axis false = true := by
      rcases h : getA s.axisMoving axis with _ | b
      · rw [h] at hfresh; simp at hfresh
      · cases b
        · exact absurd h hcv
        · simp [getD, h]
    exact ⟨s, hc, hcv, by simp [acsWaitLoop, acsIsMoving, hc, hfresh, hcached]⟩
  · refine ⟨{ s with axisMoving := setA s.axisMoving axis true, lastStatusUpdate := startNow + 50 * k }, by simp [hc], ?_, ?_⟩
    · simp [getA_setA]
    · simp [acsWaitLoop, acsIsMoving, hc, hfresh, hnl, hmv]

/-- Helper: under always-moving ACS hardware, provided the cached moving
entry for the axis is never a stale `false`, the wait loop exits false at
iteration `20 * (n + 1)`. -/
theorem acsWaitLoop_timesOut (hw : ACSHW) (axis : String) (n : Nat) (startNow : Nat) (en : Bool)
    (hidx : 0 ≤ acsGetAxisIndex axis)
    (hmv : hw.motorState (acsGetAxisIndex axis) = some (true, en)) :
    ∀ (m j : Nat) (s : ACSState), s.isConnected = true →
      getA s.axisMoving axis ≠ some false → j + m = 20 * (n + 1) →
      (acsWaitLoop hw axis (n : ℚ) startNow (m + 1) s j).map (fun r => (r.1, r.2.2))
        = some (false, 20 * (n + 1)) := by
  intro m
  induction m with
  | zero =>
      intro j s hc hcv hj
      have hj' : j = 20 * (n + 1) := by omega
      subst hj'
      have hdiv : 50 * (20 * (n + 1)) / 1000 = n + 1 := by omega
      have hgt : (((50 * (20 * (n + 1)) / 1000 : Nat)) : ℚ) > (n : ℚ) := by
        rw [hdiv]
        exact_mod_cast Nat.lt_succ_self n
      obtain ⟨s', _, _, heq⟩ :=
        acsWaitLoop_succ_moving hw axis (n : ℚ) startNow 0 s (20 * (n + 1)) en hc hidx hmv hcv
      rw [heq, if_pos hgt]
      rfl
  | succ m ih =>
      intro j s hc hcv hj
      have hle : 50 * j / 1000 ≤ n := by omega
      have hngt : ¬ (((50 * j / 1000 : Nat)) : ℚ) > (n : ℚ) := by
        rw [not_lt]
        exact_mod_cast hle
      obtain ⟨s', hc', hcv', heq⟩ :=
        acsWaitLoop_succ_moving hw axis (n : ℚ) startNow (m + 1) s j en hc hidx hmv hcv
      rw [heq, if_neg hngt]
      exact ih (j + 1) s' hc' hcv' (by omega)

/-- C1 (corrected): on an axis that never stops moving,
`WaitForMotionCompletion(axis, t)` does return false and never blocks
indefinitely, for both controller families — but NOT within `t` plus one
50 ms poll interval.  Both implementations truncate the elapsed time to whole
seconds (`duration_cast<seconds>`) and compare with `>`, so for a
whole-second timeout `t = n` the loop exits at iteration `20 * (n + 1)`,
i.e. after exactly `(n + 1)` seconds of 50 ms polls: the claimed bound is
exceeded by almost a full second. -/
theorem C1_wait_timeout_amended (n : Nat) (hwp : PIHW) (hwa : ACSHW)
    (axisP axisA : String) (s : PIState) (a : ACSState) (now : Nat) (en : Bool)
    (hpc : s.isConnected = true)
    (hpm : hwp.isMovingQ axisP = some true)
    (hac : a.isConnected = true)
    (hidx : 0 ≤ acsGetAxisIndex axisA)
    (ham : hwa.motorState (acsGetAxisIndex axisA) = some (true, en))
    (hcache : getA a.axisMoving axisA ≠ some false) :
    (piWaitForMotionCompletion hwp s axisP (n : ℚ) (20 * (n + 1) + 1)).map
        (fun r => (r.1, r.2.2)) = some (false, 20 * (n + 1)) ∧
    (acsWaitForMotionCompletion hwa now a axisA (n : ℚ) (20 * (n + 1) + 1)).map
        (fun r => (r.1, r.2.2)) = some (false, 20 * (n + 1)) := by
  constructor
  · rw [piWaitForMotionCompletion, if_neg (by simp [hpc])]
    exact piWaitLoop_timesOut hwp axisP n hpm (20 * (n + 1)) 0 s hpc (by omega)
  · rw [acsWaitForMotionCompletion, if_neg (by simp [hac]), if_neg (not_lt.mpr hidx)]
    exact acsWaitLoop_timesOut hwa axisA n now en hidx ham (20 * (n + 1)) 0 a hac hcache
      (by omega)

/-- C1 witness: the amended timeout theorem instantiated at `t = 2` seconds,
axis X, the always-moving fixtures: both loops exit false at iteration 60,
i.e. after 3 seconds. -/
theorem C1_wait_timeout_amended_witness :
    (piFixConn.isConnected = true ∧ piHWmoving.isMovingQ "X" = some true ∧
     acsFixConn.isConnected = true ∧ 0 ≤ acsGetAxisIndex "X" ∧
     acsHWmoving.motorState (acsGetAxisIndex "X") = some (true, true) ∧
     getA acsFixConn.axisMoving "X" ≠ some false) ∧
    ((piWaitForMotionCompletion piHWmoving piFixConn "X" ((2 : Nat) : ℚ) (20 * (2 + 1) + 1)).map
        (fun r => (r.1, r.2.2)) = some (false, 20 * (2 + 1)) ∧
     (acsWaitForMotionCompletion acsHWmoving 1000 acsFixConn "X" ((2 : Nat) : ℚ)
        (20 * (2 + 1) + 1)).map (fun r => (r.1, r.2.2)) = some (false, 20 * (2 + 1))) :=
  ⟨⟨by decide, by decide, by decide, by decide, by decide, by decide⟩,
   C1_wait_timeout_amended 2 piHWmoving acsHWmoving "X" "X" piFixConn acsFixConn 1000 true
     (by decide) (by decide) (by decide) (by decide) (by decide) (by decide)⟩

/-- C1 counterexample to the claimed bound: with `t = 5` and hardware that
keeps reporting moving, the PI wait loop returns false only at iteration 120,
i.e. after `50 * 120 = 6000` ms of polling — strictly more than the claimed
upper bound of `t` plus one poll interval (`5000 + 50` ms). -/
theorem C1_counterexample :
    (piWaitForMotionCompletion piHWmoving piFixConn "X" (5 : ℚ) 130).map
        (fun r => (r.1, r.2.2)) = some (false, 120) ∧
    50 * 120 > 5 * 1000 + 50 := by
  constructor
  · decide
  · decide

/-! ### Disconnect ordering and the poll thread (claim C2) -/

/-- C2 (corrected): only the PI controller's Disconnect stops and joins the
communication thread before closing the session.  The ACS controller's
Disconnect stops the axes and closes the session WITHOUT touching the
communication thread, which keeps running until destruction; its trace
contains no thread-stop event and the running flag is untouched.  Both
controllers start the thread at construction, so the thread is alive even
while Disconnected and "Connected only while the poll loop thread is alive"
does not describe either family. -/
theorem C2_disconnect_ordering_amended (hwp : PIHW) (hwa : ACSHW) (s : PIState) (a : ACSState)
    (h1 : s.isConnected = true) (h2 : s.threadRunning = true) (h3 : a.isConnected = true) :
    (piDisconnect hwp s).tr = [Event.stopThread, Event.piSTP, Event.piCloseConnection] ∧
    (piDisconnect hwp s).st.threadRunning = false ∧
    (piDisconnect hwp s).st.isConnected = false ∧
    (acsDisconnect hwa a).st.threadRunning = a.threadRunning ∧
    Event.stopThread ∉ (acsDisconnect hwa a).tr ∧
    (acsDisconnect hwa a).st.isConnected = false := by
  refine ⟨?_, ?_, ?_, ?_, ?_, ?_⟩ <;>
    simp [piDisconnect, piStopCommThread, piStopAllAxes, acsDisconnect, acsStopAllAxes,
      h1, h2, h3]

/-- C2 witness: the amended disconnect-ordering theorem at the connected
fixtures. -/
theorem C2_disconnect_ordering_amended_witness :
    (piFixConn.isConnected = true ∧ piFixConn.threadRunning = true ∧
     acsFixConn.isConnected = true) ∧
    ((piDisconnect piHWmoving piFixConn).tr
        = [Event.stopThread, Event.piSTP, Event.piCloseConnection] ∧
     (piDisconnect piHWmoving piFixConn).st.threadRunning = false ∧
     (piDisconnect piHWmoving piFixConn).st.isConnected = false ∧
     (acsDisconnect acsHWmoving acsFixConn).st.threadRunning = acsFixConn.threadRunning ∧
     Event.stopThread ∉ (acsDisconnect acsHWmoving acsFixConn).tr ∧
     (acsDisconnect acsHWmoving acsFixConn).st.isConnected = false) :=
  ⟨⟨by decide, by decide, by decide⟩,
   C2_disconnect_ordering_amended piHWmoving acsHWmoving piFixConn acsFixConn
     (by decide) (by decide) (by decide)⟩

/-- C2 counterexample: on a connected ACS controller whose poll thread is
alive, Disconnect closes the hardware session while the poll thread keeps
running — no stop/join of the loop happens before the session close, and the
loop is still running when Disconnect returns, contrary to the claim. -/
theorem C2_counterexample :
    acsFixConn.isConnected = true ∧ acsFixConn.threadRunning = true ∧
    (acsDisconnect acsHWmoving acsFixConn).st.threadRunning = true ∧
    Event.stopThread ∉ (acsDisconnect acsHWmoving acsFixConn).tr ∧
    Event.acsCloseComm ∈ (acsDisconnect acsHWmoving acsFixConn).tr := by decide

/-! ### Optimistic moving flag after MoveRelative (claim C3) -/

/-- C3 (corrected): the optimistic update exists only on the PI side, and
even there the claimed consequence fails.  After a successful non-blocking
PI MoveRelative the cache does mark the axis moving, but PI IsMoving always
issues a direct hardware query and returns ITS answer whenever it succeeds —
the cache matters only when the query fails — so lagging hardware makes
IsMoving report false right after the move.  The ACS MoveRelative performs no
optimistic cache update at all: the moving cache is exactly what it was
before the call. -/
theorem C3_optimistic_flag_amended (hwp : PIHW) (hwa : ACSHW) (s : PIState) (a : ACSState)
    (axis : String) (dtp dta : ℚ) (now : Nat)
    (hpc : s.isConnected = true) (hpv : s.debugVerbose = false)
    (hmvr : hwp.mvrOk axis = true)
    (hac : a.isConnected = true) (hadbg : a.enableDebug = false)
    (hidx : 0 ≤ acsGetAxisIndex axis)
    (hrel : hwa.toPointRelOk (acsGetAxisIndex axis) = true)
    (hgo : hwa.goOk (acsGetAxisIndex axis) = true) :
    (piMoveRelative hwp dtp 1 s axis false).map
        (fun r => (r.ret, getD r.st.axisMoving axis false)) = some (true, true) ∧
    (∀ s' : PIState, s'.isConnected = true →
       (piIsMoving hwp s' axis).ret = (hwp.isMovingQ axis).getD (getD s'.axisMoving axis false)) ∧
    (acsMoveRelative hwa dta 1 now a axis false).map
        (fun r => (r.ret, r.st.axisMoving)) = some (true, a.axisMoving) := by
  have hnl : ¬ acsGetAxisIndex axis < 0 := not_lt.mpr hidx
  refine ⟨?_, ?_, ?_⟩
  · simp [piMoveRelative, hpc, hpv, hmvr, getD, getA_setA]
  · intro s' hc'
    rcases hq : hwp.isMovingQ axis with _ | b <;> simp [piIsMoving, hc', hq]
  · simp [acsMoveRelative, acsStartMotion, hac, hadbg, hnl, hrel, hgo]

/-- C3 witness: the amended theorem at the connected fixtures on axis X. -/
theorem C3_optimistic_flag_amended_witness :
    (piFixConn.isConnected = true ∧ piFixConn.debugVerbose = false ∧
     piHWmoving.mvrOk "X" = true ∧ acsFixConn.isConnected = true ∧
     acsFixConn.enableDebug = false ∧ 0 ≤ acsGetAxisIndex "X" ∧
     acsHWmoving.toPointRelOk (acsGetAxisIndex "X") = true ∧
     acsHWmoving.goOk (acsGetAxisIndex "X") = true) ∧
    ((piMoveRelative piHWmoving 0 1 piFixConn "X" false).map
        (fun r => (r.ret, getD r.st.axisMoving "X" false)) = some (true, true) ∧
     (∀ s' : PIState, s'.isConnected = true →
        (piIsMoving piHWmoving s' "X").ret
          = (piHWmoving.isMovingQ "X").getD (getD s'.axisMoving "X" false)) ∧
     (acsMoveRelative acsHWmoving 0 1 1000 acsFixConn "X" false).map
        (fun r => (r.ret, r.st.axisMoving)) = some (true, acsFixConn.axisMoving)) :=
  ⟨⟨by decide, by decide, by decide, by decide, by decide, by decide, by decide, by decide⟩,
   C3_optimistic_flag_amended piHWmoving acsHWmoving piFixConn acsFixConn "X" 0 0 1000
     (by decide) (by decide) (by decide) (by decide) (by decide) (by decide) (by decide)
     (by decide)⟩

/-- C3 counterexample: a connected ACS controller whose fresh cache says
axis X is not moving, with hardware that accepts the move but whose status
lags.  MoveRelative(X, d, blocking=false) returns true, yet the cache still
says moving=false and the immediately following IsMoving(X) returns false —
the claim demands `(true, true, true)` here. -/
theorem C3_counterexample :
    (acsMoveRelative acsHWlag 0 1 1000 acsFixLag "X" false).map
        (fun r => (r.ret, getD r.st.axisMoving "X" false,
                   (acsIsMoving acsHWlag 1000 r.st "X").ret))
      = some (true, false, false) := by decide

/-! ### Connect semantics (claim C4) -/

/-- C4 (corrected): both Connects are idempotent-true when already connected,
and a failed open returns false, logs the vendor error code, and leaves the
state Disconnected — but the rest of the claim does not match the code.  The
background poll thread is started by the CONSTRUCTOR of either controller,
not by Connect: a successful Connect's trace contains no thread start.  Only
the ACS controller enables its configured axes on Connect; the PI controller
issues a single `PI_INI` initialization and never any per-axis enable. -/
theorem C4_connect_amended (hwp : PIHW) (hwa : ACSHW) (s : PIState) (a : ACSState)
    (ip : String) (port : Int) :
    (s.isConnected = true → piConnect hwp s ip port = ⟨true, s, []⟩) ∧
    (a.isConnected = true → acsConnect hwa a ip port = ⟨true, a, []⟩) ∧
    (s.isConnected = false → hwp.connectTCPIP ip port < 0 →
       (piConnect hwp s ip port).ret = false ∧
       (piConnect hwp s ip port).st.isConnected = false ∧
       (piConnect hwp s ip port).tr
         = [Event.piConnectTCPIP ip port, Event.logError hwp.initError]) ∧
    (a.isConnected = false → hwa.openComm ip port = ACSC_INVALID →
       (acsConnect hwa a ip port).ret = false ∧
       (acsConnect hwa a ip port).st.isConnected = false ∧
       (acsConnect hwa a ip port).tr
         = [Event.acsOpenComm ip port, Event.logError hwa.lastError]) ∧
    (s.isConnected = false → ¬ hwp.connectTCPIP ip port < 0 →
       (piConnect hwp s ip port).ret = true ∧
       (piConnect hwp s ip port).st.isConnected = true ∧
       Event.startThread ∉ (piConnect hwp s ip port).tr ∧
       (∀ i : Int, Event.acsEnable i ∉ (piConnect hwp s ip port).tr)) ∧
    (a.isConnected = false → hwa.openComm ip port ≠ ACSC_INVALID →
       (acsConnect hwa a ip port).ret = true ∧
       (acsConnect hwa a ip port).st.isConnected = true ∧
       Event.startThread ∉ (acsConnect hwa a ip port).tr ∧
       (∀ ax ∈ a.availableAxes, 0 ≤ acsGetAxisIndex ax →
          Event.acsEnable (acsGetAxisIndex ax) ∈ (acsConnect hwa a ip port).tr)) ∧
    piInit.1.threadRunning = true ∧ acsInit.1.threadRunning = true ∧
    piInit.2 = [Event.startThread] ∧ acsInit.2 = [Event.startThread] := by
  refine ⟨?_, ?_, ?_, ?_, ?_, ?_, by decide, by decide, by decide, by decide⟩
  · intro h; simp [piConnect, h]
  · intro h; simp [acsConnect, h]
  · intro h hf
    refine ⟨?_, ?_, ?_⟩ <;> simp [piConnect, h, hf]
  · intro h hf
    refine ⟨?_, ?_, ?_⟩ <;> simp [acsConnect, h, hf]
  · intro h hf
    by_cases hax : s.availableAxes = [] <;>
      rcases hq : hwp.qPOSAll with _ | q <;>
        refine ⟨?_, ?_, ?_, fun i => ?_⟩ <;>
          simp [piConnect, piGetPositions, h, hf, hax, hq]
  · intro h hf
    refine ⟨?_, ?_, ?_, fun ax hmem hi => ?_⟩ <;>
      by_cases hax : a.availableAxes = [] <;>
        rcases hx : hwa.getFPos 0 with _ | x <;>
          rcases hy : hwa.getFPos 1 with _ | y <;>
            rcases hz : hwa.getFPos 2 with _ | z <;>
              simp_all [acsConnect, acsGetPositions, hax] <;>
                exact ⟨ax, hmem, rfl⟩

/-- C4 witness: the amended connect theorem at the fresh constructor states
with address 192.168.1.10:700. -/
theorem C4_connect_amended_witness :
    ((piConnect piHWmoving piInit.1 "192.168.1.10" 700).ret = true ∧
     Event.startThread ∉ (piConnect piHWmoving piInit.1 "192.168.1.10" 700).tr ∧
     (acsConnect acsHWmoving acsInit.1 "192.168.1.10" 700).ret = true ∧
     Event.startThread ∉ (acsConnect acsHWmoving acsInit.1 "192.168.1.10" 700).tr) ∧
    piInit.1.threadRunning = true ∧ acsInit.1.threadRunning = true :=
  have h := C4_connect_amended piHWmoving acsHWmoving piInit.1 acsInit.1 "192.168.1.10" 700
  ⟨⟨(h.2.2.2.2.1 (by decide) (by decide)).1,
    (h.2.2.2.2.1 (by decide) (by decide)).2.2.1,
    (h.2.2.2.2.2.1 (by decide) (by decide)).1,
    (h.2.2.2.2.2.1 (by decide) (by decide)).2.2.1⟩,
   h.2.2.2.2.2.2.1, h.2.2.2.2.2.2.2.1⟩

/-- C4 counterexample: the constructor has already started the poll thread,
and a successful PI Connect neither starts a thread nor enables any axis —
its whole trace is the open, the `PI_INI`, and the seeding position read,
although six axes are configured.  The claim requires an axis-enable per
configured axis and a poll-loop start inside Connect. -/
theorem C4_counterexample :
    piInit.1.threadRunning = true ∧ piInit.2 = [Event.startThread] ∧
    (piConnect piHWmoving piInit.1 "192.168.1.100" 50000).ret = true ∧
    (piConnect piHWmoving piInit.1 "192.168.1.100" 50000).tr
      = [Event.piConnectTCPIP "192.168.1.100" 50000, Event.piINI, Event.piQPOSBatch] ∧
    Event.startThread ∉ (piConnect piHWmoving piInit.1 "192.168.1.100" 50000).tr ∧
    piInit.1.availableAxes ≠ [] := by decide

/-! ### Disconnect status semantics (claim C5) -/

/-- C5 (corrected): ACS Disconnect is idempotent-true when already
disconnected, always attempts the close and always leaves the state
Disconnected — but it returns the conjunction of the stop-all result and the
close result, so a stop failure alone already makes it return false even
when the close reported no error.  The PI controller's Disconnect returns
`void`: it reports no status at all; it does return early when already
disconnected and always ends Disconnected with the close attempted. -/
theorem C5_disconnect_status_amended (hwp : PIHW) (hwa : ACSHW) (s : PIState) (a : ACSState) :
    (a.isConnected = false → acsDisconnect hwa a = ⟨true, a, []⟩) ∧
    (a.isConnected = true →
       (acsDisconnect hwa a).ret = (hwa.killAllOk && hwa.closeOk) ∧
       (acsDisconnect hwa a).st.isConnected = false ∧
       (acsDisconnect hwa a).tr = [Event.acsKillAll, Event.acsCloseComm]) ∧
    (s.isConnected = false → piDisconnect hwp s = ⟨(), s, []⟩) ∧
    (s.isConnected = true →
       (piDisconnect hwp s).st.isConnected = false ∧
       Event.piCloseConnection ∈ (piDisconnect hwp s).tr) := by
  refine ⟨?_, ?_, ?_, ?_⟩
  · intro h; simp [acsDisconnect, h]
  · intro h
    refine ⟨?_, ?_, ?_⟩ <;> simp [acsDisconnect, acsStopAllAxes, h]
  · intro h; simp [piDisconnect, h]
  · intro h
    by_cases ht : s.threadRunning <;>
      refine ⟨?_, ?_⟩ <;>
        simp [piDisconnect, piStopCommThread, piStopAllAxes, h, ht]

/-- C5 witness: the amended disconnect-status theorem at the connected ACS
fixture whose stop-all fails while the close succeeds, and the connected PI
fixture. -/
theorem C5_disconnect_status_amended_witness :
    (acsFixConn.isConnected = true ∧ piFixConn.isConnected = true) ∧
    ((acsDisconnect acsHWstopFail acsFixConn).ret
        = (acsHWstopFail.killAllOk && acsHWstopFail.closeOk) ∧
     (acsDisconnect acsHWstopFail acsFixConn).st.isConnected = false ∧
     (acsDisconnect acsHWstopFail acsFixConn).tr = [Event.acsKillAll, Event.acsCloseComm] ∧
     (piDisconnect piHWmoving piFixConn).st.isConnected = false ∧
     Event.piCloseConnection ∈ (piDisconnect piHWmoving piFixConn).tr) :=
  have h := C5_disconnect_status_amended piHWmoving acsHWstopFail piFixConn acsFixConn
  ⟨⟨by decide, by decide⟩,
   ⟨(h.2.1 (by decide)).1, (h.2.1 (by decide)).2.1, (h.2.1 (by decide)).2.2,
    (h.2.2.2 (by decide)).1, (h.2.2.2 (by decide)).2⟩⟩

/-- C5 counterexample: connected ACS controller, hardware whose stop-all
fails but whose close succeeds.  Disconnect returns false although the close
reported no error — the claim permits false only to signal a close error. -/
theorem C5_counterexample :
    acsHWstopFail.closeOk = true ∧ acsHWstopFail.killAllOk = false ∧
    (acsDisconnect acsHWstopFail acsFixConn).ret = false ∧
    (acsDisconnect acsHWstopFail acsFixConn).st.isConnected = false := by decide

/-! ### Manager fixtures -/

/-- Disconnected PI controller fixture. -/
def piFixDisc : PIState :=
  { piFixConn with isConnected := false }

/-- Disconnected ACS controller fixture. -/
def acsFixDisc : ACSState :=
  { acsFixConn with isConnected := false }

/-- Mock-mode PI manager fixture: two mock devices, the first one marked
connected, no real devices. -/
def piMgrMockFix : PIManagerState :=
  { hardwareMode := false
    isInitialized := true
    deviceConfigs := []
    mockDeviceNames := ["hex-left", "hex-right"]
    mockConnectionStates := [true, false]
    realDevices := [] }

/-- ACS manager fixture with an empty registry. -/
def acsMgrEmptyFix : ACSManagerState :=
  { isInitialized := true
    deviceConfigs := []
    controllers := [] }

/-! ### Configuration fallback (claim C8) -/

/-- C8 (confirmed): when the configuration source fails, both managers fall
back to their built-in non-empty default device lists — three hex devices for
the PI family, the single gantry-main device for the ACS family — instead of
leaving the registry empty; the embedded loader is total, so the failure
never escapes. -/
theorem C8_fallback_defaults (e : String) (m : PIManagerState) (ma : ACSManagerState) :
    (piLoadDevicesFromConfig (Except.error e) m).deviceConfigs.map Prod.fst
      = ["hex-left", "hex-right", "hex-bottom"] ∧
    (piLoadDevicesFromConfig (Except.error e) m).deviceConfigs ≠ [] ∧
    (acsLoadDevicesFromConfig (Except.error e) ma).deviceConfigs.map (fun c => c.name)
      = ["gantry-main"] ∧
    (acsLoadDevicesFromConfig (Except.error e) ma).deviceConfigs ≠ [] := by
  refine ⟨?_, ?_, ?_, ?_⟩ <;>
    simp [piLoadDevicesFromConfig, acsLoadDevicesFromConfig, setA]

/-- C8 witness: the fallback theorem at a concrete failing source. -/
theorem C8_fallback_defaults_witness :
    (piLoadDevicesFromConfig (Except.error "config load failed") piMgrMockFix).deviceConfigs.map
        Prod.fst = ["hex-left", "hex-right", "hex-bottom"] ∧
    (piLoadDevicesFromConfig (Except.error "config load failed") piMgrMockFix).deviceConfigs
      ≠ [] ∧
    (acsLoadDevicesFromConfig (Except.error "config load failed")
        acsMgrEmptyFix).deviceConfigs.map (fun c => c.name) = ["gantry-main"] ∧
    (acsLoadDevicesFromConfig (Except.error "config load failed") acsMgrEmptyFix).deviceConfigs
      ≠ [] :=
  C8_fallback_defaults "config load failed" piMgrMockFix acsMgrEmptyFix

/-! ### Fail-fast move guards (claim C9) -/

/-- C9 (corrected): both controllers fail fast, without any hardware command,
when disconnected.  Only the ACS controller validates the axis identifier:
an unknown axis returns false before any command, with only the warning log.
The PI controller performs no axis validation — it SENDS the move command
with whatever axis string it was given and relies on the hardware rejecting
it, then logs the vendor error code and returns false (reported failure, no
crash, state unchanged). -/
theorem C9_failfast_amended (hwp : PIHW) (hwa : ACSHW) (s : PIState) (a : ACSState)
    (axis : String) (dtp dta : ℚ) (fp fa now : Nat) (blocking : Bool) :
    (s.isConnected = false →
       piMoveRelative hwp dtp fp s axis blocking = some ⟨false, s, []⟩ ∧
       piMoveToPosition hwp dtp fp s axis blocking = some ⟨false, s, []⟩) ∧
    (a.isConnected = false →
       acsMoveRelative hwa dta fa now a axis blocking = some ⟨false, a, []⟩ ∧
       acsMoveToPosition hwa dta fa now a axis blocking = some ⟨false, a, []⟩) ∧
    (a.isConnected = true → acsGetAxisIndex axis < 0 →
       acsMoveRelative hwa dta fa now a axis blocking
         = some ⟨false, a, [Event.logWarnUnknownAxis axis]⟩ ∧
       acsMoveToPosition hwa dta fa now a axis blocking
         = some ⟨false, a, [Event.logWarnUnknownAxis axis]⟩) ∧
    (s.isConnected = true → s.debugVerbose = false → hwp.mvrOk axis = false →
       piMoveRelative hwp dtp fp s axis blocking
         = some ⟨false, s, [Event.piMVR axis, Event.logError hwp.qERR]⟩) ∧
    (s.isConnected = true → hwp.movOk axis = false →
       piMoveToPosition hwp dtp fp s axis blocking
         = some ⟨false, s, [Event.piMOV axis, Event.logError hwp.qERR]⟩) := by
  refine ⟨?_, ?_, ?_, ?_, ?_⟩
  · intro h
    constructor <;> simp [piMoveRelative, piMoveToPosition, h]
  · intro h
    constructor <;> simp [acsMoveRelative, acsMoveToPosition, h]
  · intro h hax
    constructor <;> simp [acsMoveRelative, acsMoveToPosition, h, hax]
  · intro h hv hr
    simp [piMoveRelative, h, hv, hr]
  · intro h hr
    simp [piMoveToPosition, h, hr]

/-- C9 witness: the fail-fast theorem at the fixtures — disconnected
controllers, the unknown ACS axis "Q", and a connected PI controller whose
hardware rejects the move on the unconfigured axis "Q". -/
theorem C9_failfast_amended_witness :
    (piFixDisc.isConnected = false ∧ acsFixDisc.isConnected = false ∧
     acsFixConn.isConnected = true ∧ acsGetAxisIndex "Q" < 0 ∧
     piFixConn.isConnected = true ∧ piFixConn.debugVerbose = false ∧
     piHWreject.mvrOk "Q" = false ∧ piHWreject.movOk "Q" = false) ∧
    (piMoveRelative piHWreject 0 1 piFixDisc "Q" false = some ⟨false, piFixDisc, []⟩ ∧
     piMoveToPosition piHWreject 0 1 piFixDisc "Q" false = some ⟨false, piFixDisc, []⟩) ∧
    (acsMoveRelative acsHWmoving 0 1 1000 acsFixDisc "Q" false = some ⟨false, acsFixDisc, []⟩ ∧
     acsMoveToPosition acsHWmoving 0 1 1000 acsFixDisc "Q" false
       = some ⟨false, acsFixDisc, []⟩) ∧
    (acsMoveRelative acsHWmoving 0 1 1000 acsFixConn "Q" false
       = some ⟨false, acsFixConn, [Event.logWarnUnknownAxis "Q"]⟩ ∧
     acsMoveToPosition acsHWmoving 0 1 1000 acsFixConn "Q" false
       = some ⟨false, acsFixConn, [Event.logWarnUnknownAxis "Q"]⟩) ∧
    piMoveRelative piHWreject 0 1 piFixConn "Q" false
      = some ⟨false, piFixConn, [Event.piMVR "Q", Event.logError piHWreject.qERR]⟩ ∧
    piMoveToPosition piHWreject 0 1 piFixConn "Q" false
      = some ⟨false, piFixConn, [Event.piMOV "Q", Event.logError piHWreject.qERR]⟩ :=
  have h1 := C9_failfast_amended piHWreject acsHWmoving piFixDisc acsFixDisc "Q" 0 0 1 1 1000 false
  have h2 := C9_failfast_amended piHWreject acsHWmoving piFixConn acsFixConn "Q" 0 0 1 1 1000 false
  ⟨⟨by decide, by decide, by decide, by decide, by decide, by decide, by decide, by decide⟩,
   h1.1 (by decide), h1.2.1 (by decide),
   h2.2.2.1 (by decide) (by decide),
   h2.2.2.2.1 (by decide) (by decide) (by decide),
   h2.2.2.2.2 (by decide) (by decide)⟩

/-- C9 counterexample: the axis "Q" is not among the PI controller's
configured axes, yet MoveRelative on a connected PI controller sends the
`PI_MVR` command to the hardware before returning false — the claim requires
returning false WITHOUT sending any command for an unknown axis. -/
theorem C9_counterexample :
    "Q" ∉ piFixConn.availableAxes ∧
    (piMoveRelative piHWreject 0 1 piFixConn "Q" false).map
        (fun r => (r.ret, decide (Event.piMVR "Q" ∈ r.tr))) = some (false, true) := by decide

/-! ### Mock-mode device access (claim C10) -/

/-- C10 (confirmed): in mock (non-hardware) mode the PI manager's GetDevice
returns null for every device name, so the inherited HasDevice is false for
every name, while IsDeviceConnected — which falls back to the mock state
vector — can simultaneously be true for the same name. -/
theorem C10_mock_null_device (m : PIManagerState) (deviceName : String)
    (hm : m.hardwareMode = false) :
    piMgrGetDevice m deviceName = none ∧
    piMgrHasDevice m deviceName = false ∧
    (m.mockConnectionStates[piMgrFindMockIndex m deviceName]? = some true →
       piMgrIsDeviceConnected m deviceName = true) := by
  refine ⟨?_, ?_, fun h => ?_⟩
  · simp [piMgrGetDevice, hm]
  · simp [piMgrHasDevice, piMgrGetDevice, hm]
  · simp [piMgrIsDeviceConnected, hm, h]

/-- C10 witness: the mock-mode theorem at the two-device mock fixture on the
name hex-left, whose mock connection state is true: GetDevice is null and
HasDevice false while IsDeviceConnected is true. -/
theorem C10_mock_null_device_witness :
    (piMgrMockFix.hardwareMode = false ∧
     piMgrMockFix.mockConnectionStates[piMgrFindMockIndex piMgrMockFix "hex-left"]?
       = some true) ∧
    (piMgrGetDevice piMgrMockFix "hex-left" = none ∧
     piMgrHasDevice piMgrMockFix "hex-left" = false ∧
     (piMgrMockFix.mockConnectionStates[piMgrFindMockIndex piMgrMockFix "hex-left"]?
        = some true →
      piMgrIsDeviceConnected piMgrMockFix "hex-left" = true)) :=
  ⟨⟨by decide, by decide⟩, C10_mock_null_device piMgrMockFix "hex-left" (by decide)⟩

/-! ### Registry loading (claim C7) -/

/-- Helper: inserting a key absent from the map appends the entry. -/
theorem setA_fresh {α : Type} (m : List (String × α)) (k : String) (v : α)
    (h : ∀ p ∈ m, p.1 ≠ k) : setA m k v = m ++ [(k, v)] := by
  induction m with
  | nil => simp [setA]
  | cons p rest ih =>
      have h1 : p.1 ≠ k := h p (by simp)
      simp [setA, h1, ih (fun q hq => h q (by simp [hq]))]

/-- Helper: the ACS loading fold appends exactly the enabled "ACS"-family
records, converted, in order. -/
theorem acsLoadFold_append (rs : List MotionRecord) :
    ∀ acc : ACSManagerState,
      (rs.foldl acsLoadStep acc).deviceConfigs
        = acc.deviceConfigs
            ++ (rs.filter (fun r => r.typeController == "ACS" && r.isEnabled)).map
                acsCfgOfRecord := by
  induction rs with
  | nil => intro acc; simp
  | cons r rest ih =>
      intro acc
      by_cases hr : r.typeController = "ACS" ∧ r.isEnabled = true
      · rw [List.foldl_cons, List.filter_cons]
        rw [if_pos (by simp [hr.1, hr.2])]
        rw [show acsLoadStep acc r
            = { acc with deviceConfigs := acc.deviceConfigs ++ [acsCfgOfRecord r] } by
          simp [acsLoadStep, hr.1, hr.2]]
        rw [ih]
        simp
      · rw [List.foldl_cons, List.filter_cons]
        rw [if_neg (by
          intro hcon
          rw [Bool.and_eq_true, beq_iff_eq] at hcon
          exact hr ⟨hcon.1, hcon.2⟩)]
        rw [show acsLoadStep acc r = acc by
          simp only [acsLoadStep, ite_eq_right_iff]
          intro hcon
          exact absurd ⟨hcon.1, hcon.2⟩ hr]
        exact ih acc

/-- Helper: when the names of the "PI"-family records are distinct and absent
from the accumulator, the PI loading fold appends one registry entry per
"PI"-family record — enabled or not — in order. -/
theorem piLoadFold_configs (rs : List MotionRecord) :
    ∀ acc : PIManagerState,
      (∀ r ∈ rs, r.typeController = "PI" → ∀ p ∈ acc.deviceConfigs, p.1 ≠ r.name) →
      (((rs.filter (fun r => r.typeController == "PI")).map (fun r => r.name)).Nodup) →
      (rs.foldl piLoadStep acc).deviceConfigs
        = acc.deviceConfigs
            ++ (rs.filter (fun r => r.typeController == "PI")).map
                (fun r => (r.name, piCfgOfRecord r)) := by
  induction rs with
  | nil => intro acc _ _; simp
  | cons r rest ih =>
      intro acc hfresh hnd
      by_cases hr : r.typeController = "PI"
      · rw [List.foldl_cons, List.filter_cons, if_pos (by simp [hr])]
        rw [List.filter_cons, if_pos (by simp [hr])] at hnd
        simp only [List.map_cons, List.nodup_cons] at hnd
        have hset : setA acc.deviceConfigs r.name (piCfgOfRecord r)
            = acc.deviceConfigs ++ [(r.name, piCfgOfRecord r)] :=
          setA_fresh _ _ _ (fun p hp => hfresh r (by simp) hr p hp)
        rw [show piLoadStep acc r
            = { acc with
                deviceConfigs := acc.deviceConfigs ++ [(r.name, piCfgOfRecord r)]
                mockDeviceNames := acc.mockDeviceNames ++ [r.name]
                mockConnectionStates := acc.mockConnectionStates ++ [false] } by
          simp [piLoadStep, hr, hset]]
        rw [ih _ ?_ hnd.2]
        · simp
        · intro q hq hqt p hp
          rcases List.mem_append.mp hp with hin | hin
          · exact hfresh q (by simp [hq]) hqt p hin
          · simp only [List.mem_singleton] at hin
            subst hin
            intro heq
            apply hnd.1
            refine List.mem_map.mpr ⟨q, ?_, heq.symm⟩
            exact List.mem_filter.mpr ⟨hq, by simp [hqt]⟩
      · rw [List.foldl_cons, List.filter_cons, if_neg (by simp [hr])]
        rw [List.filter_cons, if_neg (by simp [hr])] at hnd
        rw [show piLoadStep acc r = acc by simp [piLoadStep, hr]]
        exact ih acc (fun q hq => hfresh q (by simp [hq])) hnd

/-- C7 (corrected): only the ACS manager's loader matches the claim.  Its
registry holds exactly the "ACS"-family records with `enabled=true`, fields
(including the installed-axes list) carried over in order.  The PI manager's
loader keeps EVERY "PI"-family record, enabled or not — the `isEnabled` flag
is stored but not filtered on (disabled devices are skipped only later, at
ConnectAll) — so its registry name set is the family's full name set, not the
enabled subset the claim requires. -/
theorem C7_load_registry_amended (rs : List MotionRecord) (m : PIManagerState)
    (ma : ACSManagerState)
    (hnd : (((rs.filter (fun r => r.typeController == "PI")).map (fun r => r.name)).Nodup)) :
    (piLoadDevicesFromConfig (Except.ok rs) m).deviceConfigs
      = (rs.filter (fun r => r.typeController == "PI")).map
          (fun r => (r.name, piCfgOfRecord r)) ∧
    (acsLoadDevicesFromConfig (Except.ok rs) ma).deviceConfigs
      = (rs.filter (fun r => r.typeController == "ACS" && r.isEnabled)).map
          acsCfgOfRecord := by
  constructor
  · have h := piLoadFold_configs rs
      { m with deviceConfigs := [], mockDeviceNames := [], mockConnectionStates := [] }
      (by intro r _ _ p hp; simp at hp) hnd
    simpa [piLoadDevicesFromConfig] using h
  · have h := acsLoadFold_append rs { ma with deviceConfigs := [] }
    simpa [acsLoadDevicesFromConfig] using h

/-- Configuration record fixture: a DISABLED device of the PI family. -/
def recPIdisabled : MotionRecord :=
  { name := "hex-x"
    ipAddress := "10.0.0.1"
    port := 50000
    id := 1
    isEnabled := false
    installAxes := "X Y Z U V W"
    typeController := "PI" }

/-- Configuration record fixture: an enabled device of the ACS family. -/
def recACSenabled : MotionRecord :=
  { name := "gantry-a"
    ipAddress := "10.0.0.2"
    port := 701
    id := 2
    isEnabled := true
    installAxes := "X Y Z"
    typeController := "ACS" }

/-- C7 witness: the amended loading theorem at a two-record source (one
disabled PI device, one enabled ACS device): the PI registry keeps the
disabled record, the ACS registry keeps exactly its enabled record. -/
theorem C7_load_registry_amended_witness :
    ((([recPIdisabled, recACSenabled].filter
        (fun r => r.typeController == "PI")).map (fun r => r.name)).Nodup) ∧
    ((piLoadDevicesFromConfig (Except.ok [recPIdisabled, recACSenabled])
        piMgrMockFix).deviceConfigs
      = ([recPIdisabled, recACSenabled].filter (fun r => r.typeController == "PI")).map
          (fun r => (r.name, piCfgOfRecord r)) ∧
     (acsLoadDevicesFromConfig (Except.ok [recPIdisabled, recACSenabled])
        acsMgrEmptyFix).deviceConfigs
      = ([recPIdisabled, recACSenabled].filter
          (fun r => r.typeController == "ACS" && r.isEnabled)).map acsCfgOfRecord) :=
  ⟨by decide,
   C7_load_registry_amended [recPIdisabled, recACSenabled] piMgrMockFix acsMgrEmptyFix
     (by decide)⟩

/-- C7 counterexample: a configuration source with a single DISABLED
"PI"-family record.  The claim demands the registry hold exactly the enabled
records of the family — the empty set here — but the PI manager's registry
holds the disabled device's name. -/
theorem C7_counterexample :
    recPIdisabled.isEnabled = false ∧ recPIdisabled.typeController = "PI" ∧
    (piLoadDevicesFromConfig (Except.ok [recPIdisabled]) piMgrMockFix).deviceConfigs.map
        Prod.fst = ["hex-x"] := by decide

/-! ### ConnectAll failure isolation (claim C6) -/

/-- Helper: any entry of an association list is findable by its key. -/
theorem getA_isSome_of_mem {α : Type} (k : String) (v : α) (m : List (String × α))
    (h : (k, v) ∈ m) : (getA m k).isSome = true := by
  induction m with
  | nil => simp at h
  | cons p rest ih =>
      rcases List.mem_cons.mp h with he | hm
      · rw [getA, if_pos (by rw [← he])]
        rfl
      · by_cases hk : p.1 = k
        · obtain ⟨a, b⟩ := p
          rw [getA, if_pos hk]
          rfl
        · obtain ⟨a, b⟩ := p
          rw [getA, if_neg hk]
          exact ih hm

/-- Helper: the hardware-mode PI ConnectAll fold, over all-enabled configs
with distinct names, none connected yet, each present in the registry:
attempts every device in order and continues after failures, returns the AND
of the outcomes, and stores exactly the successfully connected devices. -/
theorem piMgrConnectAllFold (hwc : String → Bool) :
    ∀ (cfgs : List (String × PIDeviceConfig)) (b : Bool) (st : PIManagerState)
      (att : List String),
      (∀ p ∈ cfgs, p.2.isEnabled = true) →
      (cfgs.map Prod.fst).Nodup →
      (∀ p ∈ cfgs, p.1 ∉ st.realDevices) →
      (∀ p ∈ cfgs, (getA st.deviceConfigs p.1).isSome = true) →
      (cfgs.foldl (piMgrConnectAllStep hwc) (b, st, att)).1
          = (b && cfgs.all (fun p => hwc p.1)) ∧
      (cfgs.foldl (piMgrConnectAllStep hwc) (b, st, att)).2.2
          = att ++ cfgs.map Prod.fst ∧
      (cfgs.foldl (piMgrConnectAllStep hwc) (b, st, att)).2.1.realDevices
          = st.realDevices ++ (cfgs.map Prod.fst).filter (fun nm => hwc nm) := by
  intro cfgs
  induction cfgs with
  | nil => intro b st att _ _ _ _; simp
  | cons p rest ih =>
      intro b st att hen hnd hni hcs
      obtain ⟨nm, cfg⟩ := p
      have hen1 : cfg.isEnabled = true := hen (nm, cfg) (by simp)
      have hnm : nm ∉ st.realDevices := hni (nm, cfg) (by simp)
      have hsome := hcs (nm, cfg) (by simp)
      simp only [List.map_cons, List.nodup_cons] at hnd
      rcases hga : getA st.deviceConfigs nm with _ | c
      · rw [hga] at hsome; simp at hsome
      have hrest_en : ∀ p ∈ rest, p.2.isEnabled = true := fun q hq => hen q (by simp [hq])
      by_cases hw1 : hwc nm = true
      · have hstep : piMgrConnectAllStep hwc (b, st, att) (nm, cfg)
            = (b && true,
               { st with
                 realDevices := st.realDevices ++ [nm]
                 deviceConfigs := setA st.deviceConfigs nm { c with isConnected := true } },
               att ++ [nm]) := by
          simp [piMgrConnectAllStep, piMgrConnectDevice, hen1, hnm, hga, hw1]
        have hni2 : ∀ p ∈ rest,
            p.1 ∉ ({ st with
                 realDevices := st.realDevices ++ [nm]
                 deviceConfigs := setA st.deviceConfigs nm { c with isConnected := true } }
              : PIManagerState).realDevices := by
          intro q hq
          simp only [List.mem_append, List.mem_singleton]
          rintro (hin | hin)
          · exact hni q (by simp [hq]) hin
          · exact hnd.1 (hin ▸ List.mem_map.mpr ⟨q, hq, rfl⟩)
        have hcs2 : ∀ p ∈ rest,
            (getA ({ st with
                 realDevices := st.realDevices ++ [nm]
                 deviceConfigs := setA st.deviceConfigs nm { c with isConnected := true } }
              : PIManagerState).deviceConfigs p.1).isSome = true := by
          intro q hq
          show (getA (setA st.deviceConfigs nm { c with isConnected := true }) q.1).isSome = true
          rw [getA_setA]
          by_cases hqe : nm = q.1
          · simp [hqe]
          · simp only [if_neg hqe]
            exact hcs q (by simp [hq])
        obtain ⟨ih1, ih2, ih3⟩ := ih (b && true)
          { st with
            realDevices := st.realDevices ++ [nm]
            deviceConfigs := setA st.deviceConfigs nm { c with isConnected := true } }
          (att ++ [nm]) hrest_en hnd.2 hni2 hcs2
        rw [List.foldl_cons, hstep]
        refine ⟨?_, ?_, ?_⟩
        · rw [ih1]
          simp [hw1, Bool.and_assoc]
        · rw [ih2]
          simp
        · rw [ih3]
          simp [hw1]
      · have hw1f : hwc nm = false := by
          cases h : hwc nm
          · rfl
          · exact absurd h hw1
        have hstep : piMgrConnectAllStep hwc (b, st, att) (nm, cfg)
            = (b && false, st, att ++ [nm]) := by
          simp [piMgrConnectAllStep, piMgrConnectDevice, hen1, hnm, hga, hw1f]
        obtain ⟨ih1, ih2, ih3⟩ := ih (b && false) st (att ++ [nm]) hrest_en hnd.2
          (fun q hq => hni q (by simp [hq]))
          (fun q hq => hcs q (by simp [hq]))
        rw [List.foldl_cons, hstep]
        refine ⟨?_, ?_, ?_⟩
        · rw [ih1]
          simp [hw1f]
        · rw [ih2]
          simp
        · rw [ih3]
          simp [hw1f]

/-- Helper: the ACS ConnectAll fold, over all-disconnected controllers with
distinct names each having a config: attempts every controller in order,
continues after failures, returns the AND of the outcomes, leaves the config
list untouched, and records each controller's new connection state. -/
theorem acsMgrConnectAllFold (hwc : String → Bool) :
    ∀ (ctrls : List (String × Bool)) (b : Bool) (st : ACSManagerState) (att : List String),
      (∀ p ∈ ctrls, p.2 = false) →
      (ctrls.map Prod.fst).Nodup →
      (∀ p ∈ ctrls, (acsFindDeviceConfig st.deviceConfigs p.1).isSome = true) →
      (ctrls.foldl (acsMgrConnectAllStep hwc) (b, st, att)).1
          = (b && ctrls.all (fun p => hwc p.1)) ∧
      (ctrls.foldl (acsMgrConnectAllStep hwc) (b, st, att)).2.2
          = att ++ ctrls.map Prod.fst ∧
      (ctrls.foldl (acsMgrConnectAllStep hwc) (b, st, att)).2.1.deviceConfigs
          = st.deviceConfigs ∧
      (∀ nm ∈ ctrls.map Prod.fst,
         getA (ctrls.foldl (acsMgrConnectAllStep hwc) (b, st, att)).2.1.controllers nm
           = some (hwc nm)) ∧
      (∀ k, k ∉ ctrls.map Prod.fst →
         getA (ctrls.foldl (acsMgrConnectAllStep hwc) (b, st, att)).2.1.controllers k
           = getA st.controllers k) := by
  intro ctrls
  induction ctrls with
  | nil => intro b st att _ _ _; simp
  | cons p rest ih =>
      intro b st att hdis hnd hcfg
      obtain ⟨nm, cst⟩ := p
      have hdis1 : cst = false := hdis (nm, cst) (by simp)
      subst hdis1
      have hsome := hcfg (nm, false) (by simp)
      simp only [List.map_cons, List.nodup_cons] at hnd
      rcases hga : acsFindDeviceConfig st.deviceConfigs nm with _ | c
      · rw [hga] at hsome; simp at hsome
      have hstep : acsMgrConnectAllStep hwc (b, st, att) (nm, false)
          = (b && hwc nm,
             { st with controllers := setA st.controllers nm (hwc nm) },
             att ++ [nm]) := by
        simp [acsMgrConnectAllStep, hga]
      have hcfg2 : ∀ p ∈ rest,
          (acsFindDeviceConfig ({ st with controllers := setA st.controllers nm (hwc nm) }
            : ACSManagerState).deviceConfigs p.1).isSome = true :=
        fun q hq => hcfg q (by simp [hq])
      obtain ⟨ih1, ih2, ih3, ih4, ih5⟩ := ih (b && hwc nm)
        { st with controllers := setA st.controllers nm (hwc nm) } (att ++ [nm])
        (fun q hq => hdis q (by simp [hq])) hnd.2 hcfg2
      rw [List.foldl_cons, hstep]
      refine ⟨?_, ?_, ?_, ?_, ?_⟩
      · rw [ih1]
        simp [Bool.and_assoc]
      · rw [ih2]
        simp
      · rw [ih3]
      · intro k hk
        simp only [List.map_cons, List.mem_cons] at hk
        rcases hk with hk | hk
        · subst hk
          rw [ih5 k hnd.1]
          simp [getA_setA]
        · exact ih4 k hk
      · intro k hk
        simp only [List.map_cons, List.mem_cons] at hk
        push_neg at hk
        rw [ih5 k hk.2]
        show getA (setA st.controllers nm (hwc nm)) k = getA st.controllers k
        rw [getA_setA, if_neg (fun h => hk.1 h.symm)]


/-- C6 (confirmed): for both managers — the PI one in hardware mode over an
initialized registry of enabled devices, the ACS one over its initialized
controller set — ConnectAll attempts Connect on every device even when
earlier ones fail (the attempts list is the full name list), returns the
logical AND of the per-device results, and the devices whose own connect
succeeded end up connected.  With three devices of which only the second
fails, the first and third are connected and the aggregate is false. -/
theorem C6_connectAll_isolation (hwc hwca : String → Bool) (m : PIManagerState)
    (ma : ACSManagerState)
    (hpin : m.isInitialized = true) (hphw : m.hardwareMode = true)
    (hen : ∀ p ∈ m.deviceConfigs, p.2.isEnabled = true)
    (hpnd : (m.deviceConfigs.map Prod.fst).Nodup)
    (hpreal : m.realDevices = [])
    (hain : ma.isInitialized = true)
    (hadis : ∀ p ∈ ma.controllers, p.2 = false)
    (hand : (ma.controllers.map Prod.fst).Nodup)
    (hacfg : ∀ p ∈ ma.controllers, (acsFindDeviceConfig ma.deviceConfigs p.1).isSome = true) :
    (piMgrConnectAll hwc m).1 = m.deviceConfigs.all (fun p => hwc p.1) ∧
    (piMgrConnectAll hwc m).2.2 = m.deviceConfigs.map Prod.fst ∧
    (piMgrConnectAll hwc m).2.1.realDevices
      = (m.deviceConfigs.map Prod.fst).filter (fun nm => hwc nm) ∧
    (acsMgrConnectAll hwca ma).1 = ma.controllers.all (fun p => hwca p.1) ∧
    (acsMgrConnectAll hwca ma).2.2 = ma.controllers.map Prod.fst ∧
    (∀ nm ∈ ma.controllers.map Prod.fst,
       getA (acsMgrConnectAll hwca ma).2.1.controllers nm = some (hwca nm)) := by
  have hp := piMgrConnectAllFold hwc m.deviceConfigs true m [] hen hpnd
    (by intro q _; rw [hpreal]; simp)
    (fun q hq => getA_isSome_of_mem q.1 q.2 m.deviceConfigs (by simpa using hq))
  have ha := acsMgrConnectAllFold hwca ma.controllers true ma [] hadis hand hacfg
  have hpe : piMgrConnectAll hwc m
      = m.deviceConfigs.foldl (piMgrConnectAllStep hwc) (true, m, []) := by
    rw [piMgrConnectAll, if_neg (by simp [hpin]), if_pos hphw]
  have hae : acsMgrConnectAll hwca ma
      = ma.controllers.foldl (acsMgrConnectAllStep hwca) (true, ma, []) := by
    rw [acsMgrConnectAll, if_neg (by simp [hain])]
  rw [hpe, hae]
  refine ⟨by simpa using hp.1, by simpa using hp.2.1, by simpa [hpreal] using hp.2.2,
    by simpa using ha.1, by simpa using ha.2.1, fun nm hnm => ha.2.2.2.1 nm hnm⟩

/-- Hardware-mode PI manager fixture: three enabled hex devices, none
connected yet. -/
def piMgrHWFix : PIManagerState :=
  { hardwareMode := true
    isInitialized := true
    deviceConfigs :=
      [("hex-a", { name := "hex-a", ipAddress := "192.168.1.100", port := 50000, id := 0
                   isEnabled := true, installAxes := "X Y Z U V W", isConnected := false }),
       ("hex-b", { name := "hex-b", ipAddress := "192.168.1.101", port := 50000, id := 1
                   isEnabled := true, installAxes := "X Y Z U V W", isConnected := false }),
       ("hex-c", { name := "hex-c", ipAddress := "192.168.1.102", port := 50000, id := 2
                   isEnabled := true, installAxes := "X Y Z U V W", isConnected := false })]
    mockDeviceNames := ["hex-a", "hex-b", "hex-c"]
    mockConnectionStates := [false, false, false]
    realDevices := [] }

/-- ACS manager fixture: three disconnected controllers, each with a config. -/
def acsMgrHWFix : ACSManagerState :=
  { isInitialized := true
    deviceConfigs :=
      [{ name := "g-a", ipAddress := "192.168.1.110", port := 701
         isEnabled := true, installAxes := "XYZ" },
       { name := "g-b", ipAddress := "192.168.1.111", port := 701
         isEnabled := true, installAxes := "XYZ" },
       { name := "g-c", ipAddress := "192.168.1.112", port := 701
         isEnabled := true, installAxes := "XYZ" }]
    controllers := [("g-a", false), ("g-b", false), ("g-c", false)] }

/-- Per-device connect outcome fixture: only the second PI device fails. -/
def hwcFailHexB : String → Bool := fun nm => nm != "hex-b"

/-- Per-device connect outcome fixture: only the second ACS device fails. -/
def hwcFailGB : String → Bool := fun nm => nm != "g-b"

/-- C6 witness: the failure-isolation theorem at the three-device fixtures
where only the second device fails to open its session; additionally the
evaluated scenario facts — the first and third devices end up connected and
the aggregate result is false, for both managers. -/
theorem C6_connectAll_isolation_witness :
    (piMgrHWFix.isInitialized = true ∧ piMgrHWFix.hardwareMode = true ∧
     (∀ p ∈ piMgrHWFix.deviceConfigs, p.2.isEnabled = true) ∧
     (piMgrHWFix.deviceConfigs.map Prod.fst).Nodup ∧
     piMgrHWFix.realDevices = [] ∧
     acsMgrHWFix.isInitialized = true ∧
     (∀ p ∈ acsMgrHWFix.controllers, p.2 = false) ∧
     (acsMgrHWFix.controllers.map Prod.fst).Nodup ∧
     (∀ p ∈ acsMgrHWFix.controllers,
        (acsFindDeviceConfig acsMgrHWFix.deviceConfigs p.1).isSome = true)) ∧
    ((piMgrConnectAll hwcFailHexB piMgrHWFix).1
        = piMgrHWFix.deviceConfigs.all (fun p => hwcFailHexB p.1) ∧
     (piMgrConnectAll hwcFailHexB piMgrHWFix).2.2
        = piMgrHWFix.deviceConfigs.map Prod.fst ∧
     (piMgrConnectAll hwcFailHexB piMgrHWFix).2.1.realDevices
        = (piMgrHWFix.deviceConfigs.map Prod.fst).filter (fun nm => hwcFailHexB nm) ∧
     (acsMgrConnectAll hwcFailGB acsMgrHWFix).1
        = acsMgrHWFix.controllers.all (fun p => hwcFailGB p.1) ∧
     (acsMgrConnectAll hwcFailGB acsMgrHWFix).2.2
        = acsMgrHWFix.controllers.map Prod.fst ∧
     (∀ nm ∈ acsMgrHWFix.controllers.map Prod.fst,
        getA (acsMgrConnectAll hwcFailGB acsMgrHWFix).2.1.controllers nm
          = some (hwcFailGB nm))) ∧
    (piMgrConnectAll hwcFailHexB piMgrHWFix).1 = false ∧
    (piMgrConnectAll hwcFailHexB piMgrHWFix).2.1.realDevices = ["hex-a", "hex-c"] ∧
    (acsMgrConnectAll hwcFailGB acsMgrHWFix).1 = false ∧
    getA (acsMgrConnectAll hwcFailGB acsMgrHWFix).2.1.controllers "g-a" = some true ∧
    getA (acsMgrConnectAll hwcFailGB acsMgrHWFix).2.1.controllers "g-b" = some false ∧
    getA (acsMgrConnectAll hwcFailGB acsMgrHWFix).2.1.controllers "g-c" = some true :=
  ⟨⟨by decide, by decide, by decide, by decide, by decide, by decide, by decide, by decide,
    by decide⟩,
   C6_connectAll_isolation hwcFailHexB hwcFailGB piMgrHWFix acsMgrHWFix
     (by decide) (by decide) (by decide) (by decide) (by decide) (by decide) (by decide)
     (by decide) (by decide),
   by decide, by decide, by decide, by decide, by decide, by decide⟩

end Project4
